import Mathlib

/-!
Verification development for the etrs89-conversor repository.

The code under verification is `convert_dataframe` in
`src/etrs89_converter/converter.py` (the packaged converter).  The
engine is a single linear pipeline: column-presence checks, robust
numeric parsing of the two coordinate columns, a range-validity filter,
zone selection per mode (force_31n / auto / fixed), delegation to an
external transform, and output assembly with rounding.

Modelling choices (shallow embedding):
* Coordinates are rationals (`ℚ`).  The float NaN sentinel produced by
  `pd.to_numeric(errors="coerce")` is modelled by `Option ℚ` at the
  parsing stage (`none` = NaN) and by `Cell.nan` inside tables.
* A pandas DataFrame is a list of column names plus a list of rows,
  each row a list of cells.
* The external pyproj transform (`Transformer.from_crs(...).transform`)
  is an oracle parameter: a function from the CRS pair and the batched
  longitude/latitude arrays to either an error message (`ProjError`) or
  the pair of output arrays.  `_get_transformer`'s `lru_cache` memoises
  a pure function of the CRS pair, so caching is semantically invisible
  and the oracle is consulted directly.
* Python exceptions become `Except ConvErr`.
-/

set_option maxHeartbeats 1600000

namespace Etrs89

/-- A cell of a DataFrame: a (finite) number, the float NaN sentinel, or
text.  Python `None` slots never reach an output column on the paths we
verify, and NaN stands in for them where numpy would leave a slot
uninitialised. -/
inductive Cell where
  | num (q : ℚ)
  | nan
  | text (s : String)
deriving DecidableEq

/-- A pandas DataFrame: column names plus rows of cells. -/
structure DataFrame where
  colNames : List String
  rows : List (List Cell)
deriving DecidableEq

/-- Position of the first column with the given label. -/
def colIdx? : List String → String → Option ℕ
  | [], _ => none
  | c :: cs, name =>
      if c = name then some 0 else (colIdx? cs name).map (fun i => i + 1)

/-- `df[name]` — reads the column with the given name (first match, as
pandas does for a unique label); a missing cell in a ragged row reads as
NaN.  Only used after the column-presence check. -/
def DataFrame.col (df : DataFrame) (name : String) : List Cell :=
  match colIdx? df.colNames name with
  | some i => df.rows.map (fun r => r.getD i Cell.nan)
  | none => []

/-- The table is rectangular: every row has one cell per column.  Real
DataFrames always satisfy this. -/
def DataFrame.Rect (df : DataFrame) : Prop :=
  ∀ r ∈ df.rows, r.length = df.colNames.length

instance (df : DataFrame) : Decidable df.Rect := by
  unfold DataFrame.Rect; infer_instance

/-- Numeric value of a digit string (most significant first). -/
def digitsVal (cs : List Char) : ℕ :=
  cs.foldl (fun a c => 10 * a + (c.toNat - 48)) 0

/-- Models `pd.to_numeric(..., errors="coerce")` on one string cell:
an optional sign, then a decimal literal (digits with at most one
point, at least one digit somewhere); anything else coerces to the NaN
sentinel, modelled as `none`. -/
def parseDecimal (s : String) : Option ℚ :=
  let cs := s.toList
  let sgn : ℚ := match cs with
    | '-' :: _ => -1
    | _ => 1
  let body : List Char := match cs with
    | '-' :: rest => rest
    | '+' :: rest => rest
    | _ => cs
  let ip := body.takeWhile Char.isDigit
  let rest := body.dropWhile Char.isDigit
  match rest with
  | [] => if ip.isEmpty then none else some (sgn * digitsVal ip)
  | '.' :: fp =>
      if fp.all Char.isDigit ∧ ¬(ip.isEmpty ∧ fp.isEmpty) then
        some (sgn * ((digitsVal ip : ℚ) + (digitsVal fp : ℚ) / (10 : ℚ) ^ fp.length))
      else none
  | _ => none

/-- `series.str.replace(",", ".", regex=False)` elementwise: every comma
becomes a period.  (Written over the character list, which is what
`String.map` does on the string's contents.) -/
def commaToPeriod (s : String) : String :=
  ⟨s.toList.map (fun c => if c = ',' then '.' else c)⟩

/-- Elementwise body of `to_float_series` (converter.py lines 62-66):
`astype(str)`, optional comma→period substitution, then
`pd.to_numeric(errors="coerce")`.  A numeric cell's textual form
round-trips to the same number and never contains a comma; `str(nan)`
is "nan", which coerces back to NaN. -/
def to_float (use_decimal_comma : Bool) : Cell → Option ℚ
  | Cell.num q => some q
  | Cell.nan => none
  | Cell.text s =>
      parseDecimal (if use_decimal_comma then commaToPeriod s else s)

/-- `Series.between(lo, hi)` on one parsed value: inclusive on both
ends; the NaN sentinel compares false. -/
def between (o : Option ℚ) (lo hi : ℚ) : Bool :=
  match o with
  | some q => decide (lo ≤ q) && decide (q ≤ hi)
  | none => false

/-- One row of `valid = lat_s.between(-90, 90) & lon_s.between(-180, 180)`
(converter.py line 71). -/
def validPair (lat lon : Option ℚ) : Bool :=
  between lat (-90) 90 && between lon (-180) 180

/-- `arr[mask]` — boolean-mask selection of the entries where the mask
is true. -/
def maskSelect {α : Type} : List Bool → List α → List α
  | true :: m, a :: l => a :: maskSelect m l
  | false :: m, _ :: l => maskSelect m l
  | _, _ => []

/-- `arr[mask] = vals` — scatter a list of values into the masked
positions, in order.  (numpy requires the lengths to agree; if `vals`
runs short here the remaining positions keep their entries.) -/
def maskScatter {α : Type} : List Bool → List α → List α → List α
  | true :: m, _ :: l, v :: vs => v :: maskScatter m l vs
  | true :: m, a :: l, [] => a :: maskScatter m l []
  | false :: m, a :: l, vs => a :: maskScatter m l vs
  | _, l, _ => l

/-- `arr[mask] = scalar` — fill the masked positions with one value. -/
def maskFill {α : Type} (mask : List Bool) (l : List α) (v : α) : List α :=
  List.zipWith (fun m a => if m then v else a) mask l

/-- auto-mode zone of one longitude (converter.py line 95):
`np.clip(((lon + 180.0) // 6.0).astype(int) + 1, 29, 31)` — the float
floor-division is integer-valued, so `astype(int)` is exact. -/
def autoZone (lon : ℚ) : ℤ :=
  min 31 (max 29 (Int.floor ((lon + 180) / 6) + 1))

/-- The zone formula exactly as the spec words it:
`clamp(floor((lon + 180) / 6) + 1, 29, 31)`. -/
def clampSpec (v lo hi : ℤ) : ℤ :=
  max lo (min v hi)

/-- The spec's auto-mode zone function, for refinement comparison with
`autoZone`. -/
def specZone (lon : ℚ) : ℤ :=
  clampSpec (Int.floor ((lon + 180) / 6) + 1) 29 31

/-- `f"{int(zone):02d}"` for the zones in play (29-31, always two
digits; zero-padded below two). -/
def zpad2 (z : ℤ) : String :=
  let s := toString z.toNat
  if s.length < 2 then "0" ++ s else s

/-- `f"EPSG:258{int(zone):02d}"`. -/
def epsgOf (z : ℤ) : String := "EPSG:258" ++ zpad2 z

/-- The external coordinate transform, abstracted: given the input and
output CRS codes and the batched longitude and latitude arrays, either
both projected arrays or a projection error (its message). -/
structure Transform where
  run : String → String → List ℚ → List ℚ → Except String (List ℚ × List ℚ)

/-- The error outcomes of `convert_dataframe` (each `raise ValueError`
site, plus propagated projection errors). -/
inductive ConvErr where
  | columnNotFound (col : String)
  | noValidRows
  | fixedZoneMissing
  | fixedZoneInvalid
  | allRowsFailed (e : String)
  | projError (e : String)
  | unknownMode (m : String)
deriving DecidableEq

deriving instance DecidableEq for Except

/-- Round half to even at an integer, as numpy/pandas `round` does on
floats. -/
def rhe (x : ℚ) : ℤ :=
  let f := Int.floor x
  let r := x - (f : ℚ)
  if r < 1 / 2 then f
  else if 1 / 2 < r then f + 1
  else if f % 2 = 0 then f else f + 1

/-- `Series.round(d)` on one value. -/
def roundTo (d : ℕ) (x : ℚ) : ℚ :=
  (rhe (x * (10 : ℚ) ^ d) : ℚ) / (10 : ℚ) ^ d

/-- The parsed series of one column: `to_float_series(df2[c])`
(converter.py lines 68-69). -/
def parsedSeries (df : DataFrame) (c : String) (use_decimal_comma : Bool) :
    List (Option ℚ) :=
  (df.col c).map (to_float use_decimal_comma)

/-- The validity mask `valid` (converter.py line 71). -/
def validMask (df : DataFrame) (lat_col lon_col : String)
    (use_decimal_comma : Bool) : List Bool :=
  List.zipWith validPair (parsedSeries df lat_col use_decimal_comma)
    (parsedSeries df lon_col use_decimal_comma)

/-- `df_out = df2.loc[valid].copy()` — the surviving original rows
(converter.py line 81). -/
def survivors (df : DataFrame) (lat_col lon_col : String)
    (use_decimal_comma : Bool) : List (List Cell) :=
  maskSelect (validMask df lat_col lon_col use_decimal_comma) df.rows

/-- `lat_v = lat_s[valid].values` (converter.py line 82).  On a valid
row the parse is `some`, so the `getD` default is never read. -/
def latValid (df : DataFrame) (lat_col lon_col : String)
    (use_decimal_comma : Bool) : List ℚ :=
  (maskSelect (validMask df lat_col lon_col use_decimal_comma)
    (parsedSeries df lat_col use_decimal_comma)).map (fun o => o.getD 0)

/-- `lon_v = lon_s[valid].values` (converter.py line 83). -/
def lonValid (df : DataFrame) (lat_col lon_col : String)
    (use_decimal_comma : Bool) : List ℚ :=
  (maskSelect (validMask df lat_col lon_col use_decimal_comma)
    (parsedSeries df lon_col use_decimal_comma)).map (fun o => o.getD 0)

/-- `zones == zone` — the boolean group mask of one zone. -/
def zoneMask (zones : List ℤ) (zone : ℤ) : List Bool :=
  zones.map (fun z => decide (z = zone))

/-- `~(zones == z0)` — the rows whose zone is not `z0`. -/
def keepMask (zones : List ℤ) (z0 : ℤ) : List Bool :=
  zones.map (fun w => !decide (w = z0))

/-- Whether an `Except` is the error case. -/
def isErr {ε α : Type} : Except ε α → Bool
  | Except.error _ => true
  | Except.ok _ => false

/-- Mutable state of the auto-mode zone-group loop (converter.py lines
96-114): the scatter targets `xs`, `ys`, `epsgs` (NaN- respectively
None-initialised, modelled by `none`), the `failed` mask and the last
projection error seen. -/
structure AutoState where
  xs : List (Option ℚ)
  ys : List (Option ℚ)
  epsgs : List (Option String)
  failed : List Bool
  lastError : Option String
deriving DecidableEq

/-- Initial auto-mode state for `n` surviving rows. -/
def autoInit (n : ℕ) : AutoState :=
  { xs := List.replicate n none
    ys := List.replicate n none
    epsgs := List.replicate n none
    failed := List.replicate n false
    lastError := none }

/-- The batched transform call for one zone group:
`transformer.transform(lon_v[mask], lat_v[mask])` against
`EPSG:258{zone}` (converter.py lines 103-107). -/
def groupCall (tr : Transform) (input_epsg : String) (zones : List ℤ)
    (lon_v lat_v : List ℚ) (zone : ℤ) : Except String (List ℚ × List ℚ) :=
  tr.run input_epsg (epsgOf zone) (maskSelect (zoneMask zones zone) lon_v)
    (maskSelect (zoneMask zones zone) lat_v)

/-- One iteration of `for zone in np.unique(zones)` (converter.py lines
102-114): transform the zone's group in one batched call; on success
scatter the results and record the CRS code, on a projection error mark
the group failed and remember the error. -/
def autoStep (tr : Transform) (input_epsg : String) (zones : List ℤ)
    (lon_v lat_v : List ℚ) (st : AutoState) (zone : ℤ) : AutoState :=
  let epsg := epsgOf zone
  let mask := zoneMask zones zone
  match groupCall tr input_epsg zones lon_v lat_v zone with
  | Except.error e =>
      { st with failed := maskFill mask st.failed true, lastError := some e }
  | Except.ok (x, y) =>
      { st with
        xs := maskScatter mask st.xs (x.map some)
        ys := maskScatter mask st.ys (y.map some)
        epsgs := maskFill mask st.epsgs (some epsg) }

/-- `np.unique` — the distinct values in ascending order. -/
def npUnique (l : List ℤ) : List ℤ :=
  List.insertionSort (fun a b => a ≤ b) l.dedup

/-- The whole auto-mode zone-group loop. -/
def autoLoop (tr : Transform) (input_epsg : String) (zones : List ℤ)
    (lon_v lat_v : List ℚ) : AutoState :=
  (npUnique zones).foldl (autoStep tr input_epsg zones lon_v lat_v)
    (autoInit zones.length)

/-- An `Option ℚ` slot as an output cell (NaN where unset). -/
def optNumCell : Option ℚ → Cell
  | some q => Cell.num q
  | none => Cell.nan

/-- An `Option String` slot as an output cell. -/
def optTextCell : Option String → Cell
  | some s => Cell.text s
  | none => Cell.nan

/-- The X/Y result column with rounding applied (converter.py lines
151-152 round the two coordinate columns of every branch's results). -/
def coordCells (d : ℕ) (xs : List (Option ℚ)) : List Cell :=
  xs.map (fun o => optNumCell (o.map (roundTo d)))

/-- Row-wise concatenation of the surviving original rows with the four
result cells. -/
def assembleRows : List (List Cell) → List Cell → List Cell → List Cell →
    List Cell → List (List Cell)
  | r :: rs, x :: xs, y :: ys, e :: es, h :: hs =>
      (r ++ [x, y, e, h]) :: assembleRows rs xs ys es hs
  | _, _, _, _, _ => []

/-- Output assembly (converter.py lines 86-92, 128-132, 135-146 build
`results` column by column on `df_out.index`; lines 154-157 concatenate
`df_out` with `results` positionally after resetting both indices). -/
def assemble (colNames : List String) (rows : List (List Cell))
    (xs ys es hs : List Cell) : DataFrame :=
  { colNames := colNames ++ ["X_ETRS89", "Y_ETRS89", "EPSG_destino", "Huso"]
    rows := assembleRows rows xs ys es hs }

/-- `convert_dataframe` (converter.py lines 14-159), faithful to the
packaged converter.  The transform oracle `tr` stands for pyproj;
`fixed_zone = none` is Python `None`.  Returns the output table and the
final `n_valid` / `n_drop` counters, or the raised error. -/
def convert_dataframe (tr : Transform) (df : DataFrame)
    (lat_col lon_col : String) (mode : String) (fixed_zone : Option ℤ)
    (use_decimal_comma : Bool) (input_epsg : String) (round_decimals : ℕ) :
    Except ConvErr (DataFrame × ℤ × ℤ) :=
  if lat_col ∉ df.colNames then Except.error (ConvErr.columnNotFound lat_col)
  else if lon_col ∉ df.colNames then Except.error (ConvErr.columnNotFound lon_col)
  else
    let df2 := df
    let valid := validMask df2 lat_col lon_col use_decimal_comma
    let n_all : ℤ := df2.rows.length
    let n_valid : ℤ := (valid.count true : ℕ)
    let n_drop : ℤ := n_all - n_valid
    if n_valid = 0 then Except.error ConvErr.noValidRows
    else
      let df_out := survivors df2 lat_col lon_col use_decimal_comma
      let lat_v := latValid df2 lat_col lon_col use_decimal_comma
      let lon_v := lonValid df2 lat_col lon_col use_decimal_comma
      if mode = "force_31n" then
        match tr.run input_epsg "EPSG:25831" lon_v lat_v with
        | Except.error e => Except.error (ConvErr.projError e)
        | Except.ok (x, y) =>
            Except.ok
              (assemble df2.colNames df_out
                (coordCells round_decimals (x.map some))
                (coordCells round_decimals (y.map some))
                (List.replicate df_out.length (Cell.text "EPSG:25831"))
                (List.replicate df_out.length (Cell.num 31)),
               n_valid, n_drop)
      else if mode = "auto" then
        let zones := lon_v.map autoZone
        let st := autoLoop tr input_epsg zones lon_v lat_v
        if st.failed.any id then
          let n_fail : ℤ := (st.failed.count true : ℕ)
          let keep := st.failed.map not
          if n_valid - n_fail = 0 then
            Except.error (ConvErr.allRowsFailed (st.lastError.getD "None"))
          else
            Except.ok
              (assemble df2.colNames (maskSelect keep df_out)
                (coordCells round_decimals (maskSelect keep st.xs))
                (coordCells round_decimals (maskSelect keep st.ys))
                ((maskSelect keep st.epsgs).map optTextCell)
                ((maskSelect keep zones).map (fun (z : ℤ) => Cell.num (z : ℚ))),
               n_valid - n_fail, n_drop + n_fail)
        else
          Except.ok
            (assemble df2.colNames df_out
              (coordCells round_decimals st.xs)
              (coordCells round_decimals st.ys)
              (st.epsgs.map optTextCell)
              (zones.map (fun (z : ℤ) => Cell.num (z : ℚ))),
             n_valid, n_drop)
      else if mode = "fixed" then
        match fixed_zone with
        | none => Except.error ConvErr.fixedZoneMissing
        | some z =>
            if z = 29 ∨ z = 30 ∨ z = 31 then
              match tr.run input_epsg (epsgOf z) lon_v lat_v with
              | Except.error e => Except.error (ConvErr.projError e)
              | Except.ok (x, y) =>
                  Except.ok
                    (assemble df2.colNames df_out
                      (coordCells round_decimals (x.map some))
                      (coordCells round_decimals (y.map some))
                      (List.replicate df_out.length (Cell.text (epsgOf z)))
                      (List.replicate df_out.length (Cell.num (z : ℚ))),
                     n_valid, n_drop)
            else Except.error ConvErr.fixedZoneInvalid
      else Except.error (ConvErr.unknownMode mode)

/-!
Object-identity model.  The pure `convert_dataframe` above cannot even
express mutation of the caller's table, so for the frame property we
re-run the translation over an explicit store of DataFrame objects:
each pandas object (the caller's `df`, the copy `df2`, `df_out` and its
re-copy, `results`, the concatenated output) lives at an index of a
`Heap`, `.copy()` and constructors allocate, and every in-place pandas
column assignment (`results[...] = ...`, the two `.round` rewrites)
becomes a `Heap.write` at that object's index.  The caller's table is
the object the function is given a reference to; the frame property
says the final heap still holds the original table there.
-/

/-- A store of live DataFrame objects, indexed by allocation order. -/
abbrev Heap : Type := List DataFrame

/-- Allocate a fresh object, returning the grown heap and the new
object's reference. -/
def Heap.alloc (h : Heap) (d : DataFrame) : Heap × ℕ :=
  (List.append h [d], List.length h)

/-- Dereference. -/
def Heap.read (h : Heap) (i : ℕ) : DataFrame :=
  List.getD h i ⟨[], []⟩

/-- Overwrite the object at a reference (in-place mutation). -/
def Heap.write (h : Heap) (i : ℕ) (d : DataFrame) : Heap :=
  List.set h i d

/-- `df[name] = cells` — in-place column assignment: overwrite the
column if the label exists, else append it on the right. -/
def DataFrame.setCol (df : DataFrame) (name : String) (cells : List Cell) :
    DataFrame :=
  match colIdx? df.colNames name with
  | some i => ⟨df.colNames, List.zipWith (fun r c => r.set i c) df.rows cells⟩
  | none => ⟨df.colNames ++ [name], List.zipWith (fun r c => r ++ [c]) df.rows cells⟩

/-- `Series.round(d)` cellwise. -/
def cellRound (d : ℕ) : Cell → Cell
  | Cell.num q => Cell.num (roundTo d q)
  | Cell.nan => Cell.nan
  | Cell.text s => Cell.text s

/-- `df[name] = df[name].round(d)` (converter.py lines 151-152). -/
def DataFrame.roundCol (df : DataFrame) (name : String) (d : ℕ) : DataFrame :=
  df.setCol name ((df.col name).map (cellRound d))

/-- `pd.concat([a.reset_index(drop=True), b.reset_index(drop=True)],
axis=1)` — positional column-wise concatenation. -/
def DataFrame.hconcat (a b : DataFrame) : DataFrame :=
  ⟨a.colNames ++ b.colNames, List.zipWith (fun r s => r ++ s) a.rows b.rows⟩

/-- The four result-column writes of one branch: allocate `results =
pd.DataFrame(index=df_out.index)` and assign the columns in source
order. -/
def buildResults (h : Heap) (n : ℕ) (xs ys es hs : List Cell) : Heap × ℕ :=
  let p := h.alloc ⟨[], List.replicate n []⟩
  let h1 := p.1
  let rRef := p.2
  let h2 := h1.write rRef ((h1.read rRef).setCol "X_ETRS89" xs)
  let h3 := h2.write rRef ((h2.read rRef).setCol "Y_ETRS89" ys)
  let h4 := h3.write rRef ((h3.read rRef).setCol "EPSG_destino" es)
  let h5 := h4.write rRef ((h4.read rRef).setCol "Huso" hs)
  (h5, rRef)

/-- The shared tail of every successful branch: the two rounding
rewrites (lines 151-152) and the concatenation (lines 154-157). -/
def finishOut (h : Heap) (dfOutRef rRef : ℕ) (round_decimals : ℕ) :
    Heap × ℕ :=
  let h1 := h.write rRef ((h.read rRef).roundCol "X_ETRS89" round_decimals)
  let h2 := h1.write rRef ((h1.read rRef).roundCol "Y_ETRS89" round_decimals)
  (h2.alloc (DataFrame.hconcat (h2.read dfOutRef) (h2.read rRef)))

/-- `convert_dataframe` re-translated over the object store.  `dfRef`
is the caller's table.  Returns the outcome (with the output table as a
reference) and the final heap.  Computation of parsed series, masks,
zones and the auto loop is exactly the pure pipeline above, applied to
the copy `df2`; the heap records which object every table write
targets. -/
def convert_dataframe_heap (tr : Transform) (h : Heap) (dfRef : ℕ)
    (lat_col lon_col mode : String) (fixed_zone : Option ℤ)
    (use_decimal_comma : Bool) (input_epsg : String) (round_decimals : ℕ) :
    Except ConvErr (ℕ × ℤ × ℤ) × Heap :=
  let df := h.read dfRef
  if lat_col ∉ df.colNames then (Except.error (ConvErr.columnNotFound lat_col), h)
  else if lon_col ∉ df.colNames then
    (Except.error (ConvErr.columnNotFound lon_col), h)
  else
    let p2 := h.alloc df
    let h2 := p2.1
    let df2 := h2.read p2.2
    let valid := validMask df2 lat_col lon_col use_decimal_comma
    let n_all : ℤ := df2.rows.length
    let n_valid : ℤ := (valid.count true : ℕ)
    let n_drop : ℤ := n_all - n_valid
    if n_valid = 0 then (Except.error ConvErr.noValidRows, h2)
    else
      let pOut := h2.alloc ⟨df2.colNames, survivors df2 lat_col lon_col use_decimal_comma⟩
      let h3 := pOut.1
      let dfOutRef := pOut.2
      let lat_v := latValid df2 lat_col lon_col use_decimal_comma
      let lon_v := lonValid df2 lat_col lon_col use_decimal_comma
      if mode = "force_31n" then
        match tr.run input_epsg "EPSG:25831" lon_v lat_v with
        | Except.error e => (Except.error (ConvErr.projError e), h3)
        | Except.ok (x, y) =>
            let n := (h3.read dfOutRef).rows.length
            let pr := buildResults h3 n (x.map Cell.num) (y.map Cell.num)
              (List.replicate n (Cell.text "EPSG:25831"))
              (List.replicate n (Cell.num 31))
            let pf := finishOut pr.1 dfOutRef pr.2 round_decimals
            (Except.ok (pf.2, n_valid, n_drop), pf.1)
      else if mode = "auto" then
        let zones := lon_v.map autoZone
        let st := autoLoop tr input_epsg zones lon_v lat_v
        if st.failed.any id then
          let n_fail : ℤ := (st.failed.count true : ℕ)
          let keep := st.failed.map not
          let pOut2 := h3.alloc ⟨df2.colNames,
            maskSelect keep (survivors df2 lat_col lon_col use_decimal_comma)⟩
          let h4 := pOut2.1
          if n_valid - n_fail = 0 then
            (Except.error (ConvErr.allRowsFailed (st.lastError.getD "None")), h4)
          else
            let n := (h4.read pOut2.2).rows.length
            let pr := buildResults h4 n
              ((maskSelect keep st.xs).map optNumCell)
              ((maskSelect keep st.ys).map optNumCell)
              ((maskSelect keep st.epsgs).map optTextCell)
              ((maskSelect keep zones).map (fun (z : ℤ) => Cell.num (z : ℚ)))
            let pf := finishOut pr.1 pOut2.2 pr.2 round_decimals
            (Except.ok (pf.2, n_valid - n_fail, n_drop + n_fail), pf.1)
        else
          let n := (h3.read dfOutRef).rows.length
          let pr := buildResults h3 n
            (st.xs.map optNumCell)
            (st.ys.map optNumCell)
            (st.epsgs.map optTextCell)
            (zones.map (fun (z : ℤ) => Cell.num (z : ℚ)))
          let pf := finishOut pr.1 dfOutRef pr.2 round_decimals
          (Except.ok (pf.2, n_valid, n_drop), pf.1)
      else if mode = "fixed" then
        match fixed_zone with
        | none => (Except.error ConvErr.fixedZoneMissing, h3)
        | some z =>
            if z = 29 ∨ z = 30 ∨ z = 31 then
              match tr.run input_epsg (epsgOf z) lon_v lat_v with
              | Except.error e => (Except.error (ConvErr.projError e), h3)
              | Except.ok (x, y) =>
                  let n := (h3.read dfOutRef).rows.length
                  let pr := buildResults h3 n (x.map Cell.num) (y.map Cell.num)
                    (List.replicate n (Cell.text (epsgOf z)))
                    (List.replicate n (Cell.num (z : ℚ)))
                  let pf := finishOut pr.1 dfOutRef pr.2 round_decimals
                  (Except.ok (pf.2, n_valid, n_drop), pf.1)
            else (Except.error ConvErr.fixedZoneInvalid, h3)
      else (Except.error (ConvErr.unknownMode mode), h3)


/-- A concrete always-succeeding transform (the identity projection),
used to instantiate theorems at concrete inputs. -/
def trId : Transform :=
  ⟨fun _ _ lons lats => Except.ok (lons, lats)⟩

/-- A concrete transform failing exactly on one destination CRS. -/
def trFailOn (bad : String) (msg : String) : Transform :=
  ⟨fun _ outCrs lons lats =>
    if outCrs = bad then Except.error msg else Except.ok (lons, lats)⟩

/-- A concrete transform failing on every call. -/
def trFailAll (msg : String) : Transform :=
  ⟨fun _ _ _ _ => Except.error msg⟩

/-! ### Basic facts about the mask operations -/

theorem maskSelect_nil {α : Type} (l : List α) : maskSelect [] l = [] := by
  cases l <;> rfl

theorem maskSelect_nil_right {α : Type} (m : List Bool) :
    maskSelect m ([] : List α) = [] := by
  cases m with
  | nil => rfl
  | cons b m => cases b <;> rfl

theorem maskSelect_cons {α : Type} (b : Bool) (m : List Bool) (a : α) (l : List α) :
    maskSelect (b :: m) (a :: l) = if b then a :: maskSelect m l else maskSelect m l := by
  cases b <;> rfl

theorem length_maskSelect {α : Type} :
    ∀ (m : List Bool) (l : List α), m.length = l.length →
      (maskSelect m l).length = m.count true
  | [], _, _ => by simp [maskSelect_nil]
  | b :: m, [], h => by simp at h
  | b :: m, a :: l, h => by
      cases b <;>
        simp [maskSelect_cons, List.count_cons,
          length_maskSelect m l (by simpa using h)]

theorem maskSelect_map {α β : Type} (f : α → β) :
    ∀ (m : List Bool) (l : List α),
      maskSelect m (l.map f) = (maskSelect m l).map f
  | [], l => by simp [maskSelect_nil]
  | b :: m, [] => by simp [maskSelect_nil_right]
  | b :: m, a :: l => by
      cases b <;> simp [maskSelect_cons, maskSelect_map f m l]

theorem maskSelect_replicate {α : Type} :
    ∀ (m : List Bool) (n : ℕ) (v : α), m.length = n →
      maskSelect m (List.replicate n v) = List.replicate (m.count true) v
  | [], _, v, h => by simp [← h, maskSelect_nil]
  | b :: m, n, v, h => by
      cases n with
      | zero => simp at h
      | succ k =>
          cases b <;>
            simp [List.replicate_succ, maskSelect_cons, List.count_cons,
              maskSelect_replicate m k v (by simpa using h)]

theorem mem_of_mem_maskSelect {α : Type} :
    ∀ (m : List Bool) (l : List α) (a : α), a ∈ maskSelect m l → a ∈ l
  | [], l, a, h => by simp [maskSelect_nil] at h
  | b :: m, [], a, h => by simp [maskSelect_nil_right] at h
  | b :: m, x :: l, a, h => by
      cases b with
      | false =>
          simp only [maskSelect_cons, if_neg Bool.false_ne_true] at h
          exact List.mem_cons_of_mem x (mem_of_mem_maskSelect m l a h)
      | true =>
          simp only [maskSelect_cons, if_pos rfl] at h
          rcases List.mem_cons.1 h with h | h
          · exact h ▸ List.mem_cons_self x l
          · exact List.mem_cons_of_mem x (mem_of_mem_maskSelect m l a h)

theorem count_true_map_not :
    ∀ m : List Bool, (m.map not).count true = m.length - m.count true
  | [] => rfl
  | b :: m => by
      have hle : m.count true ≤ m.length := List.count_le_length _ _
      cases b <;>
        simp [List.count_cons, count_true_map_not m, Nat.succ_sub hle]

theorem length_maskFill {α : Type} (m : List Bool) (l : List α) (v : α) :
    (maskFill m l v).length = min m.length l.length := by
  simp [maskFill]

theorem length_maskScatter {α : Type} :
    ∀ (m : List Bool) (l : List α) (vs : List α),
      (maskScatter m l vs).length = l.length
  | [], l, vs => by simp [maskScatter]
  | true :: m, [], vs => by cases vs <;> simp [maskScatter]
  | true :: m, a :: l, [] => by
      simp [maskScatter, length_maskScatter m l []]
  | true :: m, a :: l, v :: vs => by
      simp [maskScatter, length_maskScatter m l vs]
  | false :: m, [], vs => by simp [maskScatter]
  | false :: m, a :: l, vs => by
      simp [maskScatter, length_maskScatter m l vs]

/-! ### Zone masks: same-zone and disjoint-zone interaction of
selection with scatter and fill -/

theorem zoneMask_nil (z : ℤ) : zoneMask [] z = [] := rfl

theorem zoneMask_cons (w : ℤ) (zs : List ℤ) (z : ℤ) :
    zoneMask (w :: zs) z = decide (w = z) :: zoneMask zs z := rfl

theorem length_zoneMask (zs : List ℤ) (z : ℤ) :
    (zoneMask zs z).length = zs.length := by
  simp [zoneMask]

theorem length_keepMask (zs : List ℤ) (z : ℤ) :
    (keepMask zs z).length = zs.length := by
  simp [keepMask]

theorem keepMask_cons (w : ℤ) (zs : List ℤ) (z : ℤ) :
    keepMask (w :: zs) z = (!decide (w = z)) :: keepMask zs z := rfl

theorem keepMask_eq_map_not (zs : List ℤ) (z : ℤ) :
    (zoneMask zs z).map not = keepMask zs z := by
  simp [zoneMask, keepMask, List.map_map, Function.comp_def]

theorem maskFill_nil {α : Type} (l : List α) (v : α) : maskFill [] l v = [] := rfl

theorem maskFill_nil_right {α : Type} (m : List Bool) (v : α) :
    maskFill m ([] : List α) v = [] := by
  cases m <;> rfl

theorem maskFill_cons {α : Type} (b : Bool) (m : List Bool) (a : α) (l : List α)
    (v : α) :
    maskFill (b :: m) (a :: l) v = (if b then v else a) :: maskFill m l v := rfl

theorem maskFill_sel_same {α : Type} :
    ∀ (m : List Bool) (l : List α) (v : α), m.length = l.length →
      maskSelect m (maskFill m l v) = List.replicate (m.count true) v
  | [], l, v, _ => by simp [maskFill_nil, maskSelect_nil]
  | b :: m, [], v, h => by simp at h
  | b :: m, a :: l, v, h => by
      cases b <;>
        simp [maskFill_cons, maskSelect_cons, List.count_cons,
          List.replicate_succ, maskFill_sel_same m l v (by simpa using h)]

theorem maskFill_sel_disj {α : Type} (z z' : ℤ) (hzz : z' ≠ z) :
    ∀ (zs : List ℤ) (l : List α) (v : α),
      maskSelect (zoneMask zs z') (maskFill (zoneMask zs z) l v) =
        maskSelect (zoneMask zs z') l
  | [], l, v => by simp [zoneMask_nil, maskSelect_nil]
  | w :: zs, [], v => by simp [maskFill_nil_right, maskSelect_nil_right]
  | w :: zs, a :: l, v => by
      have ih := maskFill_sel_disj z z' hzz zs l v
      by_cases hw : w = z
      · have hne : ¬(z = z') := fun hh => hzz hh.symm
        simp [zoneMask_cons, maskFill_cons, hw, hne, maskSelect_cons, ih]
      · simp [zoneMask_cons, maskFill_cons, hw, maskSelect_cons, ih]

theorem maskScatter_sel_same {α : Type} :
    ∀ (m : List Bool) (l : List α) (vs : List α), m.length = l.length →
      vs.length = m.count true →
      maskSelect m (maskScatter m l vs) = vs
  | [], l, vs, _, hv => by
      simp at hv
      simp [maskScatter, maskSelect_nil, hv]
  | b :: m, [], vs, h, _ => by simp at h
  | true :: m, a :: l, [], _, hv => by simp [List.count_cons] at hv
  | true :: m, a :: l, v :: vs, h, hv => by
      simp only [maskScatter, maskSelect_cons, if_pos rfl]
      have hv' : vs.length = m.count true := by
        simp [List.count_cons] at hv; omega
      simp [maskScatter_sel_same m l vs (by simpa using h) hv']
  | false :: m, a :: l, vs, h, hv => by
      simp only [maskScatter, maskSelect_cons, if_neg Bool.false_ne_true]
      have hv' : vs.length = m.count true := by
        simpa [List.count_cons] using hv
      simp [maskScatter_sel_same m l vs (by simpa using h) hv']

theorem maskScatter_sel_disj {α : Type} (z z' : ℤ) (hzz : z' ≠ z) :
    ∀ (zs : List ℤ) (l : List α) (vs : List α),
      maskSelect (zoneMask zs z') (maskScatter (zoneMask zs z) l vs) =
        maskSelect (zoneMask zs z') l
  | [], l, vs => by simp [zoneMask_nil, maskSelect_nil]
  | w :: zs, [], vs => by
      cases h : decide (w = z)
      · simp [zoneMask_cons, maskScatter, h, maskSelect_nil_right]
      · cases vs <;> simp [zoneMask_cons, maskScatter, h, maskSelect_nil_right]
  | w :: zs, a :: l, vs => by
      by_cases hw : w = z
      · have hne : ¬(z = z') := fun hh => hzz hh.symm
        cases vs with
        | nil =>
            simp [zoneMask_cons, maskScatter, hw, hne, maskSelect_cons,
              maskScatter_sel_disj z z' hzz zs l []]
        | cons v vs =>
            simp [zoneMask_cons, maskScatter, hw, hne, maskSelect_cons,
              maskScatter_sel_disj z z' hzz zs l vs]
      · simp only [zoneMask_cons, decide_eq_false hw, maskScatter]
        simp [maskSelect_cons, maskScatter_sel_disj z z' hzz zs l vs]

theorem maskSelect_keep_nested {α : Type} (z z0 : ℤ) (hzz : z ≠ z0) :
    ∀ (zs : List ℤ) (l : List α), zs.length = l.length →
      maskSelect (zoneMask (maskSelect (keepMask zs z0) zs) z)
          (maskSelect (keepMask zs z0) l) =
        maskSelect (zoneMask zs z) l
  | [], l, h => by
      simp [keepMask, zoneMask_nil, maskSelect_nil]
  | w :: zs, [], h => by simp at h
  | w :: zs, a :: l, h => by
      have ih := maskSelect_keep_nested z z0 hzz zs l (by simpa using h)
      by_cases hw : w = z0
      · have hne : ¬(z0 = z) := fun hh => hzz hh.symm
        simp [keepMask_cons, zoneMask_cons, hw, hne, maskSelect_cons, ih]
      · simp [keepMask_cons, zoneMask_cons, hw, maskSelect_cons, ih]

/-! ### `np.unique` -/

theorem mem_npUnique (z : ℤ) (l : List ℤ) : z ∈ npUnique l ↔ z ∈ l := by
  simp [npUnique, List.mem_insertionSort, List.mem_dedup]

theorem nodup_npUnique (l : List ℤ) : (npUnique l).Nodup :=
  (List.perm_insertionSort _ _).nodup_iff.2 (List.nodup_dedup l)

/-! ### Pointwise access helpers -/

theorem getD_zoneMask (zs : List ℤ) (z : ℤ) (i : ℕ) (hi : i < zs.length) :
    (zoneMask zs z).getD i false = decide (zs.getD i 0 = z) := by
  rw [List.getD_eq_getElem _ _ (by simpa [length_zoneMask] using hi),
    List.getD_eq_getElem _ _ hi]
  simp [zoneMask]

theorem getD_maskFill {α : Type} (m : List Bool) (l : List α) (v d : α) (i : ℕ)
    (him : i < m.length) (hil : i < l.length) :
    (maskFill m l v).getD i d = if m.getD i false then v else l.getD i d := by
  rw [List.getD_eq_getElem _ _ (by simp [length_maskFill]; omega),
    List.getD_eq_getElem _ _ him, List.getD_eq_getElem _ _ hil]
  simp [maskFill]

theorem list_ext_getD {α : Type} (l l' : List α) (d : α)
    (hlen : l.length = l'.length)
    (h : ∀ i, i < l.length → l.getD i d = l'.getD i d) : l = l' := by
  apply List.ext_getElem hlen
  intro i h1 h2
  have := h i h1
  rwa [List.getD_eq_getElem _ _ h1, List.getD_eq_getElem _ _ h2] at this

/-! ### The auto-mode zone-group loop -/

theorem autoStep_err (tr : Transform) (ie : String) (zones : List ℤ)
    (lon_v lat_v : List ℚ) (st : AutoState) (zone : ℤ) (e : String)
    (h : groupCall tr ie zones lon_v lat_v zone = Except.error e) :
    autoStep tr ie zones lon_v lat_v st zone =
      { st with failed := maskFill (zoneMask zones zone) st.failed true
                lastError := some e } := by
  simp [autoStep, h]

theorem autoStep_okk (tr : Transform) (ie : String) (zones : List ℤ)
    (lon_v lat_v : List ℚ) (st : AutoState) (zone : ℤ) (x y : List ℚ)
    (h : groupCall tr ie zones lon_v lat_v zone = Except.ok (x, y)) :
    autoStep tr ie zones lon_v lat_v st zone =
      { st with xs := maskScatter (zoneMask zones zone) st.xs (x.map some)
                ys := maskScatter (zoneMask zones zone) st.ys (y.map some)
                epsgs := maskFill (zoneMask zones zone) st.epsgs
                  (some (epsgOf zone)) } := by
  simp [autoStep, h]

theorem loop_lengths (tr : Transform) (ie : String) (zones : List ℤ)
    (lon_v lat_v : List ℚ) :
    ∀ (L : List ℤ) (st : AutoState),
      st.xs.length = zones.length → st.ys.length = zones.length →
      st.epsgs.length = zones.length → st.failed.length = zones.length →
      (L.foldl (autoStep tr ie zones lon_v lat_v) st).xs.length = zones.length ∧
      (L.foldl (autoStep tr ie zones lon_v lat_v) st).ys.length = zones.length ∧
      (L.foldl (autoStep tr ie zones lon_v lat_v) st).epsgs.length = zones.length ∧
      (L.foldl (autoStep tr ie zones lon_v lat_v) st).failed.length = zones.length
  | [], st, hx, hy, he, hf => ⟨hx, hy, he, hf⟩
  | z :: L, st, hx, hy, he, hf => by
      rw [List.foldl_cons]
      cases hc : groupCall tr ie zones lon_v lat_v z with
      | error e =>
          rw [autoStep_err tr ie zones lon_v lat_v st z e hc]
          exact loop_lengths tr ie zones lon_v lat_v L _ hx hy he
            (by simp [length_maskFill, length_zoneMask, hf])
      | ok p =>
          rw [autoStep_okk tr ie zones lon_v lat_v st z p.1 p.2 (by simpa using hc)]
          exact loop_lengths tr ie zones lon_v lat_v L _
            (by simp [length_maskScatter, hx])
            (by simp [length_maskScatter, hy])
            (by simp [length_maskFill, length_zoneMask, he]) hf

theorem loop_failed_getD (tr : Transform) (ie : String) (zones : List ℤ)
    (lon_v lat_v : List ℚ) :
    ∀ (L : List ℤ) (st : AutoState), st.failed.length = zones.length →
      ∀ i, i < zones.length →
      ((L.foldl (autoStep tr ie zones lon_v lat_v) st).failed).getD i false =
        ((decide (zones.getD i 0 ∈ L) &&
            isErr (groupCall tr ie zones lon_v lat_v (zones.getD i 0))) ||
          st.failed.getD i false)
  | [], st, hf, i, hi => by simp
  | z :: L, st, hf, i, hi => by
      have hlen : (autoStep tr ie zones lon_v lat_v st z).failed.length =
          zones.length := by
        cases hc : groupCall tr ie zones lon_v lat_v z with
        | error e =>
            rw [autoStep_err tr ie zones lon_v lat_v st z e hc]
            simp [length_maskFill, length_zoneMask, hf]
        | ok p =>
            rw [autoStep_okk tr ie zones lon_v lat_v st z p.1 p.2 (by simpa using hc)]
            exact hf
      have hstep : (autoStep tr ie zones lon_v lat_v st z).failed.getD i false =
          ((decide (zones.getD i 0 = z) &&
              isErr (groupCall tr ie zones lon_v lat_v z)) ||
            st.failed.getD i false) := by
        cases hc : groupCall tr ie zones lon_v lat_v z with
        | error e =>
            rw [autoStep_err tr ie zones lon_v lat_v st z e hc]
            have : ({ st with
                failed := maskFill (zoneMask zones z) st.failed true,
                lastError := some e } : AutoState).failed =
                maskFill (zoneMask zones z) st.failed true := rfl
            rw [this,
              getD_maskFill (zoneMask zones z) st.failed true false i
                (by rw [length_zoneMask]; exact hi) (by rw [hf]; exact hi),
              getD_zoneMask zones z i hi]
            cases hd : decide (zones.getD i 0 = z) <;> simp [hd, hc, isErr]
        | ok p =>
            rw [autoStep_okk tr ie zones lon_v lat_v st z p.1 p.2 (by simpa using hc)]
            simp [hc, isErr]
      rw [List.foldl_cons,
        loop_failed_getD tr ie zones lon_v lat_v L
          (autoStep tr ie zones lon_v lat_v st z) hlen i hi, hstep]
      by_cases hzi : zones.getD i 0 = z
      · rw [hzi]
        cases herr : isErr (groupCall tr ie zones lon_v lat_v z) <;>
          simp [herr, List.mem_cons]
      · simp only [List.getD_eq_getElem?_getD] at hzi
        simp [hzi, List.mem_cons]

theorem loop_epsgs_getD (tr : Transform) (ie : String) (zones : List ℤ)
    (lon_v lat_v : List ℚ) :
    ∀ (L : List ℤ) (st : AutoState), st.epsgs.length = zones.length →
      ∀ i, i < zones.length →
      ((L.foldl (autoStep tr ie zones lon_v lat_v) st).epsgs).getD i none =
        if zones.getD i 0 ∈ L ∧
            isErr (groupCall tr ie zones lon_v lat_v (zones.getD i 0)) = false
        then some (epsgOf (zones.getD i 0))
        else st.epsgs.getD i none
  | [], st, he, i, hi => by simp
  | z :: L, st, he, i, hi => by
      have hlen : (autoStep tr ie zones lon_v lat_v st z).epsgs.length =
          zones.length := by
        cases hc : groupCall tr ie zones lon_v lat_v z with
        | error e =>
            rw [autoStep_err tr ie zones lon_v lat_v st z e hc]
            exact he
        | ok p =>
            rw [autoStep_okk tr ie zones lon_v lat_v st z p.1 p.2 (by simpa using hc)]
            simp [length_maskFill, length_zoneMask, he]
      have hstep : (autoStep tr ie zones lon_v lat_v st z).epsgs.getD i none =
          if zones.getD i 0 = z ∧
              isErr (groupCall tr ie zones lon_v lat_v z) = false
          then some (epsgOf z)
          else st.epsgs.getD i none := by
        cases hc : groupCall tr ie zones lon_v lat_v z with
        | error e =>
            rw [autoStep_err tr ie zones lon_v lat_v st z e hc]
            simp [hc, isErr]
        | ok p =>
            rw [autoStep_okk tr ie zones lon_v lat_v st z p.1 p.2 (by simpa using hc)]
            have : ({ st with
                xs := maskScatter (zoneMask zones z) st.xs (p.1.map some),
                ys := maskScatter (zoneMask zones z) st.ys (p.2.map some),
                epsgs := maskFill (zoneMask zones z) st.epsgs (some (epsgOf z)) } :
                  AutoState).epsgs =
                maskFill (zoneMask zones z) st.epsgs (some (epsgOf z)) := rfl
            rw [this,
              getD_maskFill (zoneMask zones z) st.epsgs (some (epsgOf z)) none i
                (by rw [length_zoneMask]; exact hi) (by rw [he]; exact hi),
              getD_zoneMask zones z i hi]
            by_cases hzi : zones.getD i 0 = z
            · rw [if_pos (decide_eq_true hzi), if_pos ⟨hzi, by simp [hc, isErr]⟩]
            · rw [if_neg (by simpa using hzi), if_neg (fun hco => hzi hco.1)]
      rw [List.foldl_cons,
        loop_epsgs_getD tr ie zones lon_v lat_v L
          (autoStep tr ie zones lon_v lat_v st z) hlen i hi, hstep]
      by_cases hzi : zones.getD i 0 = z
      · rw [hzi]
        cases herr : isErr (groupCall tr ie zones lon_v lat_v z) <;>
          simp [herr, List.mem_cons]
      · simp only [List.getD_eq_getElem?_getD] at hzi
        simp [hzi, List.mem_cons]

theorem loop_sel_notin (tr : Transform) (ie : String) (zones : List ℤ)
    (lon_v lat_v : List ℚ) (z : ℤ) :
    ∀ (L : List ℤ) (st : AutoState), z ∉ L →
      maskSelect (zoneMask zones z)
          ((L.foldl (autoStep tr ie zones lon_v lat_v) st).xs) =
        maskSelect (zoneMask zones z) st.xs ∧
      maskSelect (zoneMask zones z)
          ((L.foldl (autoStep tr ie zones lon_v lat_v) st).ys) =
        maskSelect (zoneMask zones z) st.ys ∧
      maskSelect (zoneMask zones z)
          ((L.foldl (autoStep tr ie zones lon_v lat_v) st).epsgs) =
        maskSelect (zoneMask zones z) st.epsgs ∧
      maskSelect (zoneMask zones z)
          ((L.foldl (autoStep tr ie zones lon_v lat_v) st).failed) =
        maskSelect (zoneMask zones z) st.failed
  | [], st, _ => ⟨rfl, rfl, rfl, rfl⟩
  | a :: L, st, hz => by
      have hza : z ≠ a := fun h => hz (h ▸ List.mem_cons_self a L)
      have hzL : z ∉ L := fun h => hz (List.mem_cons_of_mem a h)
      rw [List.foldl_cons]
      cases hc : groupCall tr ie zones lon_v lat_v a with
      | error e =>
          rw [autoStep_err tr ie zones lon_v lat_v st a e hc]
          obtain ⟨ihx, ihy, ihe, ihf⟩ :=
            loop_sel_notin tr ie zones lon_v lat_v z L
              { st with
                failed := maskFill (zoneMask zones a) st.failed true,
                lastError := some e } hzL
          exact ⟨ihx, ihy, ihe,
            ihf.trans (maskFill_sel_disj a z hza zones st.failed true)⟩
      | ok p =>
          rw [autoStep_okk tr ie zones lon_v lat_v st a p.1 p.2 (by simpa using hc)]
          obtain ⟨ihx, ihy, ihe, ihf⟩ :=
            loop_sel_notin tr ie zones lon_v lat_v z L
              { st with
                xs := maskScatter (zoneMask zones a) st.xs (p.1.map some),
                ys := maskScatter (zoneMask zones a) st.ys (p.2.map some),
                epsgs := maskFill (zoneMask zones a) st.epsgs (some (epsgOf a)) }
              hzL
          exact ⟨ihx.trans (maskScatter_sel_disj a z hza zones st.xs (p.1.map some)),
            ihy.trans (maskScatter_sel_disj a z hza zones st.ys (p.2.map some)),
            ihe.trans (maskFill_sel_disj a z hza zones st.epsgs (some (epsgOf a))),
            ihf⟩

theorem loop_sel_ok (tr : Transform) (ie : String) (zones : List ℤ)
    (lon_v lat_v : List ℚ) (z : ℤ) (x y : List ℚ)
    (hc : groupCall tr ie zones lon_v lat_v z = Except.ok (x, y))
    (hx : x.length = (zoneMask zones z).count true)
    (hy : y.length = (zoneMask zones z).count true) :
    ∀ (L : List ℤ) (st : AutoState), L.Nodup → z ∈ L →
      st.xs.length = zones.length → st.ys.length = zones.length →
      st.epsgs.length = zones.length →
      maskSelect (zoneMask zones z)
          ((L.foldl (autoStep tr ie zones lon_v lat_v) st).xs) = x.map some ∧
      maskSelect (zoneMask zones z)
          ((L.foldl (autoStep tr ie zones lon_v lat_v) st).ys) = y.map some ∧
      maskSelect (zoneMask zones z)
          ((L.foldl (autoStep tr ie zones lon_v lat_v) st).epsgs) =
        List.replicate ((zoneMask zones z).count true) (some (epsgOf z)) ∧
      maskSelect (zoneMask zones z)
          ((L.foldl (autoStep tr ie zones lon_v lat_v) st).failed) =
        maskSelect (zoneMask zones z) st.failed
  | [], _, _, hmem, _, _, _ => absurd hmem (List.not_mem_nil z)
  | a :: L, st, hnd, hmem, hxs, hys, hes => by
      rw [List.foldl_cons]
      by_cases hza : a = z
      · subst hza
        rw [autoStep_okk tr ie zones lon_v lat_v st a x y hc]
        have hnotin : a ∉ L := (List.nodup_cons.1 hnd).1
        obtain ⟨ihx, ihy, ihe, ihf⟩ :=
          loop_sel_notin tr ie zones lon_v lat_v a L
            { st with
              xs := maskScatter (zoneMask zones a) st.xs (x.map some),
              ys := maskScatter (zoneMask zones a) st.ys (y.map some),
              epsgs := maskFill (zoneMask zones a) st.epsgs (some (epsgOf a)) }
            hnotin
        refine ⟨ihx.trans ?_, ihy.trans ?_, ihe.trans ?_, ihf⟩
        · exact maskScatter_sel_same (zoneMask zones a) st.xs (x.map some)
            (by rw [length_zoneMask, hxs]) (by simpa using hx)
        · exact maskScatter_sel_same (zoneMask zones a) st.ys (y.map some)
            (by rw [length_zoneMask, hys]) (by simpa using hy)
        · exact maskFill_sel_same (zoneMask zones a) st.epsgs (some (epsgOf a))
            (by rw [length_zoneMask, hes])
      · have hzmem : z ∈ L := by
          rcases List.mem_cons.1 hmem with h | h
          · exact absurd h.symm hza
          · exact h
        have hnd' := (List.nodup_cons.1 hnd).2
        have hzaa : z ≠ a := fun h => hza h.symm
        cases hca : groupCall tr ie zones lon_v lat_v a with
        | error e =>
            rw [autoStep_err tr ie zones lon_v lat_v st a e hca]
            obtain ⟨ihx, ihy, ihe, ihf⟩ :=
              loop_sel_ok tr ie zones lon_v lat_v z x y hc hx hy L
                { st with
                  failed := maskFill (zoneMask zones a) st.failed true,
                  lastError := some e } hnd' hzmem hxs hys hes
            exact ⟨ihx, ihy, ihe,
              ihf.trans (maskFill_sel_disj a z hzaa zones st.failed true)⟩
        | ok p =>
            rw [autoStep_okk tr ie zones lon_v lat_v st a p.1 p.2 (by simpa using hca)]
            obtain ⟨ihx, ihy, ihe, ihf⟩ :=
              loop_sel_ok tr ie zones lon_v lat_v z x y hc hx hy L
                { st with
                  xs := maskScatter (zoneMask zones a) st.xs (p.1.map some),
                  ys := maskScatter (zoneMask zones a) st.ys (p.2.map some),
                  epsgs := maskFill (zoneMask zones a) st.epsgs (some (epsgOf a)) }
                hnd' hzmem
                (by simp [length_maskScatter, hxs])
                (by simp [length_maskScatter, hys])
                (by simp [length_maskFill, length_zoneMask, hes])
            exact ⟨ihx, ihy, ihe, ihf⟩

theorem loop_lastError_allfail (tr : Transform) (ie : String) (zones : List ℤ)
    (lon_v lat_v : List ℚ) (errf : ℤ → String) :
    ∀ (L : List ℤ) (st : AutoState),
      (∀ w ∈ L, groupCall tr ie zones lon_v lat_v w = Except.error (errf w)) →
      L ≠ [] →
      ∃ zl, L.getLast? = some zl ∧
        (L.foldl (autoStep tr ie zones lon_v lat_v) st).lastError =
          some (errf zl)
  | [], _, _, hne => absurd rfl hne
  | a :: L, st, hf, _ => by
      rw [List.foldl_cons,
        autoStep_err tr ie zones lon_v lat_v st a (errf a)
          (hf a (List.mem_cons_self a L))]
      cases L with
      | nil => exact ⟨a, rfl, rfl⟩
      | cons b L' =>
          obtain ⟨zl, h1, h2⟩ :=
            loop_lastError_allfail tr ie zones lon_v lat_v errf (b :: L')
              { st with
                failed := maskFill (zoneMask zones a) st.failed true,
                lastError := some (errf a) }
              (fun w hw => hf w (List.mem_cons_of_mem a hw)) (by simp)
          exact ⟨zl, by simpa [List.getLast?_cons_cons] using h1, h2⟩

/-! ### autoLoop-level corollaries -/

theorem getD_replicate_self {α : Type} (n i : ℕ) (v : α) :
    (List.replicate n v).getD i v = v := by
  rcases Nat.lt_or_ge i n with h | h
  · rw [List.getD_eq_getElem _ _ (by simpa using h)]
    simp
  · exact List.getD_eq_default _ _ (by simpa using h)

theorem autoLoop_lengths (tr : Transform) (ie : String) (zones : List ℤ)
    (lon_v lat_v : List ℚ) :
    (autoLoop tr ie zones lon_v lat_v).xs.length = zones.length ∧
    (autoLoop tr ie zones lon_v lat_v).ys.length = zones.length ∧
    (autoLoop tr ie zones lon_v lat_v).epsgs.length = zones.length ∧
    (autoLoop tr ie zones lon_v lat_v).failed.length = zones.length := by
  unfold autoLoop
  exact loop_lengths tr ie zones lon_v lat_v (npUnique zones)
    (autoInit zones.length) (by simp [autoInit]) (by simp [autoInit])
    (by simp [autoInit]) (by simp [autoInit])

theorem autoLoop_failed_getD (tr : Transform) (ie : String) (zones : List ℤ)
    (lon_v lat_v : List ℚ) (i : ℕ) (hi : i < zones.length) :
    (autoLoop tr ie zones lon_v lat_v).failed.getD i false =
      isErr (groupCall tr ie zones lon_v lat_v (zones.getD i 0)) := by
  unfold autoLoop
  rw [loop_failed_getD tr ie zones lon_v lat_v (npUnique zones)
    (autoInit zones.length) (by simp [autoInit]) i hi]
  have hmz : zones.getD i 0 ∈ zones := by
    rw [List.getD_eq_getElem _ _ hi]
    exact List.getElem_mem hi
  have hmem : zones.getD i 0 ∈ npUnique zones := (mem_npUnique _ _).2 hmz
  simp only [List.getD_eq_getElem?_getD] at hmem
  simp [hmem, autoInit, getD_replicate_self]

theorem autoLoop_epsgs_getD (tr : Transform) (ie : String) (zones : List ℤ)
    (lon_v lat_v : List ℚ) (i : ℕ) (hi : i < zones.length) :
    (autoLoop tr ie zones lon_v lat_v).epsgs.getD i none =
      if isErr (groupCall tr ie zones lon_v lat_v (zones.getD i 0)) = false
      then some (epsgOf (zones.getD i 0)) else none := by
  unfold autoLoop
  rw [loop_epsgs_getD tr ie zones lon_v lat_v (npUnique zones)
    (autoInit zones.length) (by simp [autoInit]) i hi]
  have hmz : zones.getD i 0 ∈ zones := by
    rw [List.getD_eq_getElem _ _ hi]
    exact List.getElem_mem hi
  have hmem : zones.getD i 0 ∈ npUnique zones := (mem_npUnique _ _).2 hmz
  by_cases herr : isErr (groupCall tr ie zones lon_v lat_v (zones.getD i 0)) = false
  · rw [if_pos ⟨hmem, herr⟩, if_pos herr]
  · rw [if_neg (fun hco => herr hco.2), if_neg herr]
    simp [autoInit, getD_replicate_self]

theorem autoLoop_failed_list (tr : Transform) (ie : String) (zones : List ℤ)
    (lon_v lat_v : List ℚ) (f : ℤ → Bool)
    (h : ∀ w ∈ zones, isErr (groupCall tr ie zones lon_v lat_v w) = f w) :
    (autoLoop tr ie zones lon_v lat_v).failed = zones.map f := by
  apply list_ext_getD _ _ false
  · rw [(autoLoop_lengths tr ie zones lon_v lat_v).2.2.2]
    simp
  · intro i hi'
    have hi : i < zones.length := by
      rwa [(autoLoop_lengths tr ie zones lon_v lat_v).2.2.2] at hi'
    have hmz : zones.getD i 0 ∈ zones := by
      rw [List.getD_eq_getElem _ _ hi]
      exact List.getElem_mem hi
    rw [autoLoop_failed_getD tr ie zones lon_v lat_v i hi, h _ hmz,
      List.getD_eq_getElem (zones.map f) false (by simpa using hi),
      List.getElem_map, List.getD_eq_getElem zones 0 hi]

theorem autoLoop_epsgs_all_ok (tr : Transform) (ie : String) (zones : List ℤ)
    (lon_v lat_v : List ℚ)
    (h : ∀ w ∈ zones, isErr (groupCall tr ie zones lon_v lat_v w) = false) :
    (autoLoop tr ie zones lon_v lat_v).epsgs =
      zones.map (fun w => some (epsgOf w)) := by
  apply list_ext_getD _ _ none
  · rw [(autoLoop_lengths tr ie zones lon_v lat_v).2.2.1]
    simp
  · intro i hi'
    have hi : i < zones.length := by
      rwa [(autoLoop_lengths tr ie zones lon_v lat_v).2.2.1] at hi'
    have hmz : zones.getD i 0 ∈ zones := by
      rw [List.getD_eq_getElem _ _ hi]
      exact List.getElem_mem hi
    rw [autoLoop_epsgs_getD tr ie zones lon_v lat_v i hi, if_pos (h _ hmz),
      List.getD_eq_getElem (zones.map (fun w => some (epsgOf w))) none
        (by simpa using hi),
      List.getElem_map, List.getD_eq_getElem zones 0 hi]

theorem autoLoop_sel_ok (tr : Transform) (ie : String) (zones : List ℤ)
    (lon_v lat_v : List ℚ) (z : ℤ) (x y : List ℚ)
    (hc : groupCall tr ie zones lon_v lat_v z = Except.ok (x, y))
    (hx : x.length = (zoneMask zones z).count true)
    (hy : y.length = (zoneMask zones z).count true) (hz : z ∈ zones) :
    maskSelect (zoneMask zones z) (autoLoop tr ie zones lon_v lat_v).xs =
      x.map some ∧
    maskSelect (zoneMask zones z) (autoLoop tr ie zones lon_v lat_v).ys =
      y.map some ∧
    maskSelect (zoneMask zones z) (autoLoop tr ie zones lon_v lat_v).epsgs =
      List.replicate ((zoneMask zones z).count true) (some (epsgOf z)) := by
  unfold autoLoop
  obtain ⟨h1, h2, h3, _⟩ := loop_sel_ok tr ie zones lon_v lat_v z x y hc hx hy
    (npUnique zones) (autoInit zones.length) (nodup_npUnique zones)
    ((mem_npUnique _ _).2 hz) (by simp [autoInit]) (by simp [autoInit])
    (by simp [autoInit])
  exact ⟨h1, h2, h3⟩

theorem autoLoop_lastError_allfail (tr : Transform) (ie : String)
    (zones : List ℤ) (lon_v lat_v : List ℚ) (errf : ℤ → String)
    (h : ∀ w ∈ npUnique zones,
      groupCall tr ie zones lon_v lat_v w = Except.error (errf w))
    (hne : zones ≠ []) :
    ∃ zl, (npUnique zones).getLast? = some zl ∧
      (autoLoop tr ie zones lon_v lat_v).lastError = some (errf zl) := by
  unfold autoLoop
  obtain ⟨w, hw⟩ := List.exists_mem_of_ne_nil zones hne
  exact loop_lastError_allfail tr ie zones lon_v lat_v errf (npUnique zones)
    (autoInit zones.length) h
    (List.ne_nil_of_mem ((mem_npUnique _ _).2 hw))

/-! ### Column lookup and output assembly -/

theorem colIdx?_eq_none (name : String) :
    ∀ cs : List String, name ∉ cs → colIdx? cs name = none
  | [], _ => rfl
  | c :: cs, h => by
      have hc : ¬(c = name) := fun hh => h (hh ▸ List.mem_cons_self c cs)
      simp [colIdx?, hc,
        colIdx?_eq_none name cs (fun hh => h (List.mem_cons_of_mem c hh))]

theorem colIdx?_isSome_of_mem (name : String) :
    ∀ cs : List String, name ∈ cs → ∃ i, colIdx? cs name = some i
  | [], h => absurd h (List.not_mem_nil name)
  | c :: cs, h => by
      by_cases hc : c = name
      · exact ⟨0, by simp [colIdx?, hc]⟩
      · obtain ⟨i, hi⟩ := colIdx?_isSome_of_mem name cs (by
          rcases List.mem_cons.1 h with hh | hh
          · exact absurd hh.symm hc
          · exact hh)
        exact ⟨i + 1, by simp [colIdx?, hc, hi]⟩

theorem colIdx?_append_notin (name : String) (l : List String) :
    ∀ cs : List String, name ∉ cs →
      colIdx? (cs ++ l) name = (colIdx? l name).map (fun i => cs.length + i)
  | [], _ => by
      cases h : colIdx? l name <;> simp [h]
  | c :: cs, h => by
      have hc : ¬(c = name) := fun hh => h (hh ▸ List.mem_cons_self c cs)
      rw [List.cons_append]
      have ih := colIdx?_append_notin name l cs
        (fun hh => h (List.mem_cons_of_mem c hh))
      simp only [colIdx?, hc, if_neg hc, ih]
      cases hcl : colIdx? l name with
      | none => simp
      | some i => simp; omega

theorem length_assembleRows :
    ∀ (rows : List (List Cell)) (xs ys es hs : List Cell),
      xs.length = rows.length → ys.length = rows.length →
      es.length = rows.length → hs.length = rows.length →
      (assembleRows rows xs ys es hs).length = rows.length
  | [], xs, ys, es, hs, _, _, _, _ => by simp [assembleRows]
  | r :: rows, [], ys, es, hs, hx, _, _, _ => by simp at hx
  | r :: rows, x :: xs, [], es, hs, _, hy, _, _ => by simp at hy
  | r :: rows, x :: xs, y :: ys, [], hs, _, _, he, _ => by simp at he
  | r :: rows, x :: xs, y :: ys, e :: es, [], _, _, _, hh => by simp at hh
  | r :: rows, x :: xs, y :: ys, e :: es, h :: hs, hx, hy, he, hh => by
      simp [assembleRows, length_assembleRows rows xs ys es hs
        (by simpa using hx) (by simpa using hy) (by simpa using he)
        (by simpa using hh)]

theorem assembleRows_map_getD (k : ℕ) :
    ∀ (rows : List (List Cell)) (xs ys es hs : List Cell),
      (∀ r ∈ rows, r.length = k) →
      xs.length = rows.length → ys.length = rows.length →
      es.length = rows.length → hs.length = rows.length →
      (assembleRows rows xs ys es hs).map (fun r => r.getD k Cell.nan) = xs ∧
      (assembleRows rows xs ys es hs).map (fun r => r.getD (k + 1) Cell.nan) = ys ∧
      (assembleRows rows xs ys es hs).map (fun r => r.getD (k + 2) Cell.nan) = es ∧
      (assembleRows rows xs ys es hs).map (fun r => r.getD (k + 3) Cell.nan) = hs
  | [], xs, ys, es, hs, _, hx, hy, he, hh => by
      simp at hx hy he hh
      simp [assembleRows, hx, hy, he, hh]
  | r :: rows, [], ys, es, hs, _, hx, _, _, _ => by simp at hx
  | r :: rows, x :: xs, [], es, hs, _, _, hy, _, _ => by simp at hy
  | r :: rows, x :: xs, y :: ys, [], hs, _, _, _, he, _ => by simp at he
  | r :: rows, x :: xs, y :: ys, e :: es, [], _, _, _, _, hh => by simp at hh
  | r :: rows, x :: xs, y :: ys, e :: es, h :: hs, hr, hx, hy, he, hh => by
      have hrk : r.length = k := hr r (List.mem_cons_self r rows)
      obtain ⟨ih1, ih2, ih3, ih4⟩ := assembleRows_map_getD k rows xs ys es hs
        (fun s hsm => hr s (List.mem_cons_of_mem r hsm))
        (by simpa using hx) (by simpa using hy) (by simpa using he)
        (by simpa using hh)
      simp only [List.getD_eq_getElem?_getD] at ih1 ih2 ih3 ih4
      refine ⟨?_, ?_, ?_, ?_⟩
      · simp only [assembleRows, List.map_cons,
          List.getD_append_right r _ Cell.nan k (by omega), hrk]
        simp [ih1]
      · simp only [assembleRows, List.map_cons,
          List.getD_append_right r _ Cell.nan (k + 1) (by omega), hrk]
        simp only [Nat.add_sub_cancel_left]
        simp [ih2]
      · simp only [assembleRows, List.map_cons,
          List.getD_append_right r _ Cell.nan (k + 2) (by omega), hrk]
        simp only [Nat.add_sub_cancel_left]
        simp [ih3]
      · simp only [assembleRows, List.map_cons,
          List.getD_append_right r _ Cell.nan (k + 3) (by omega), hrk]
        simp only [Nat.add_sub_cancel_left]
        simp [ih4]

theorem assembleRows_map_take (k : ℕ) :
    ∀ (rows : List (List Cell)) (xs ys es hs : List Cell),
      (∀ r ∈ rows, r.length = k) →
      xs.length = rows.length → ys.length = rows.length →
      es.length = rows.length → hs.length = rows.length →
      (assembleRows rows xs ys es hs).map (fun r => r.take k) = rows
  | [], xs, ys, es, hs, _, _, _, _, _ => by simp [assembleRows]
  | r :: rows, [], ys, es, hs, _, hx, _, _, _ => by simp at hx
  | r :: rows, x :: xs, [], es, hs, _, _, hy, _, _ => by simp at hy
  | r :: rows, x :: xs, y :: ys, [], hs, _, _, _, he, _ => by simp at he
  | r :: rows, x :: xs, y :: ys, e :: es, [], _, _, _, _, hh => by simp at hh
  | r :: rows, x :: xs, y :: ys, e :: es, h :: hs, hr, hx, hy, he, hh => by
      have hrk : r.length = k := hr r (List.mem_cons_self r rows)
      simp only [assembleRows, List.map_cons]
      rw [List.take_left' hrk,
        assembleRows_map_take k rows xs ys es hs
          (fun s hsm => hr s (List.mem_cons_of_mem r hsm))
          (by simpa using hx) (by simpa using hy) (by simpa using he)
          (by simpa using hh)]

theorem assemble_col_x (cn : List String) (rows : List (List Cell))
    (xs ys es hs : List Cell) (hnotin : "X_ETRS89" ∉ cn)
    (hr : ∀ r ∈ rows, r.length = cn.length)
    (hx : xs.length = rows.length) (hy : ys.length = rows.length)
    (he : es.length = rows.length) (hh : hs.length = rows.length) :
    (assemble cn rows xs ys es hs).col "X_ETRS89" = xs := by
  have hidx : colIdx?
      (cn ++ ["X_ETRS89", "Y_ETRS89", "EPSG_destino", "Huso"]) "X_ETRS89" =
      some (cn.length + 0) := by
    rw [colIdx?_append_notin "X_ETRS89" _ cn hnotin]; rfl
  simp only [DataFrame.col, assemble, hidx]
  simpa using (assembleRows_map_getD cn.length rows xs ys es hs hr hx hy he hh).1

theorem assemble_col_y (cn : List String) (rows : List (List Cell))
    (xs ys es hs : List Cell) (hnotin : "Y_ETRS89" ∉ cn)
    (hr : ∀ r ∈ rows, r.length = cn.length)
    (hx : xs.length = rows.length) (hy : ys.length = rows.length)
    (he : es.length = rows.length) (hh : hs.length = rows.length) :
    (assemble cn rows xs ys es hs).col "Y_ETRS89" = ys := by
  have hidx : colIdx?
      (cn ++ ["X_ETRS89", "Y_ETRS89", "EPSG_destino", "Huso"]) "Y_ETRS89" =
      some (cn.length + 1) := by
    rw [colIdx?_append_notin "Y_ETRS89" _ cn hnotin]; rfl
  simp only [DataFrame.col, assemble, hidx]
  exact (assembleRows_map_getD cn.length rows xs ys es hs hr hx hy he hh).2.1

theorem assemble_col_epsg (cn : List String) (rows : List (List Cell))
    (xs ys es hs : List Cell) (hnotin : "EPSG_destino" ∉ cn)
    (hr : ∀ r ∈ rows, r.length = cn.length)
    (hx : xs.length = rows.length) (hy : ys.length = rows.length)
    (he : es.length = rows.length) (hh : hs.length = rows.length) :
    (assemble cn rows xs ys es hs).col "EPSG_destino" = es := by
  have hidx : colIdx?
      (cn ++ ["X_ETRS89", "Y_ETRS89", "EPSG_destino", "Huso"]) "EPSG_destino" =
      some (cn.length + 2) := by
    rw [colIdx?_append_notin "EPSG_destino" _ cn hnotin]; rfl
  simp only [DataFrame.col, assemble, hidx]
  exact (assembleRows_map_getD cn.length rows xs ys es hs hr hx hy he hh).2.2.1

theorem assemble_col_huso (cn : List String) (rows : List (List Cell))
    (xs ys es hs : List Cell) (hnotin : "Huso" ∉ cn)
    (hr : ∀ r ∈ rows, r.length = cn.length)
    (hx : xs.length = rows.length) (hy : ys.length = rows.length)
    (he : es.length = rows.length) (hh : hs.length = rows.length) :
    (assemble cn rows xs ys es hs).col "Huso" = hs := by
  have hidx : colIdx?
      (cn ++ ["X_ETRS89", "Y_ETRS89", "EPSG_destino", "Huso"]) "Huso" =
      some (cn.length + 3) := by
    rw [colIdx?_append_notin "Huso" _ cn hnotin]; rfl
  simp only [DataFrame.col, assemble, hidx]
  exact (assembleRows_map_getD cn.length rows xs ys es hs hr hx hy he hh).2.2.2

/-! ### Lengths through the pipeline -/

theorem length_col (df : DataFrame) (c : String) (h : c ∈ df.colNames) :
    (df.col c).length = df.rows.length := by
  obtain ⟨i, hi⟩ := colIdx?_isSome_of_mem c df.colNames h
  simp [DataFrame.col, hi]

theorem length_parsedSeries (df : DataFrame) (c : String) (udc : Bool)
    (h : c ∈ df.colNames) :
    (parsedSeries df c udc).length = df.rows.length := by
  simp [parsedSeries, length_col df c h]

theorem length_validMask (df : DataFrame) (lat_col lon_col : String)
    (udc : Bool) (hlat : lat_col ∈ df.colNames) (hlon : lon_col ∈ df.colNames) :
    (validMask df lat_col lon_col udc).length = df.rows.length := by
  simp [validMask, length_parsedSeries df lat_col udc hlat,
    length_parsedSeries df lon_col udc hlon]

theorem length_survivors (df : DataFrame) (lat_col lon_col : String)
    (udc : Bool) (hlat : lat_col ∈ df.colNames) (hlon : lon_col ∈ df.colNames) :
    (survivors df lat_col lon_col udc).length =
      (validMask df lat_col lon_col udc).count true :=
  length_maskSelect _ _ (length_validMask df lat_col lon_col udc hlat hlon)

theorem length_latValid (df : DataFrame) (lat_col lon_col : String)
    (udc : Bool) (hlat : lat_col ∈ df.colNames) (hlon : lon_col ∈ df.colNames) :
    (latValid df lat_col lon_col udc).length =
      (validMask df lat_col lon_col udc).count true := by
  rw [latValid, List.length_map]
  exact length_maskSelect _ _ (by
    rw [length_validMask df lat_col lon_col udc hlat hlon,
      length_parsedSeries df lat_col udc hlat])

theorem length_lonValid (df : DataFrame) (lat_col lon_col : String)
    (udc : Bool) (hlat : lat_col ∈ df.colNames) (hlon : lon_col ∈ df.colNames) :
    (lonValid df lat_col lon_col udc).length =
      (validMask df lat_col lon_col udc).count true := by
  rw [lonValid, List.length_map]
  exact length_maskSelect _ _ (by
    rw [length_validMask df lat_col lon_col udc hlat hlon,
      length_parsedSeries df lon_col udc hlon])

theorem survivors_rect (df : DataFrame) (lat_col lon_col : String)
    (udc : Bool) (hrect : df.Rect) :
    ∀ r ∈ survivors df lat_col lon_col udc, r.length = df.colNames.length :=
  fun r hr => hrect r (mem_of_mem_maskSelect _ _ _ hr)

/-! ### Branch shapes of `convert_dataframe` -/

theorem convert_col_missing_lat (tr : Transform) (df : DataFrame)
    (lat_col lon_col mode : String) (fz : Option ℤ) (udc : Bool) (ie : String)
    (rd : ℕ) (hlat : lat_col ∉ df.colNames) :
    convert_dataframe tr df lat_col lon_col mode fz udc ie rd =
      Except.error (ConvErr.columnNotFound lat_col) := by
  simp [convert_dataframe, hlat]

theorem convert_col_missing_lon (tr : Transform) (df : DataFrame)
    (lat_col lon_col mode : String) (fz : Option ℤ) (udc : Bool) (ie : String)
    (rd : ℕ) (hlat : lat_col ∈ df.colNames) (hlon : lon_col ∉ df.colNames) :
    convert_dataframe tr df lat_col lon_col mode fz udc ie rd =
      Except.error (ConvErr.columnNotFound lon_col) := by
  simp [convert_dataframe, hlat, hlon]

theorem convert_no_valid (tr : Transform) (df : DataFrame)
    (lat_col lon_col mode : String) (fz : Option ℤ) (udc : Bool) (ie : String)
    (rd : ℕ) (hlat : lat_col ∈ df.colNames) (hlon : lon_col ∈ df.colNames)
    (hn : (validMask df lat_col lon_col udc).count true = 0) :
    convert_dataframe tr df lat_col lon_col mode fz udc ie rd =
      Except.error ConvErr.noValidRows := by
  simp [convert_dataframe, hlat, hlon, hn]

theorem convert_force_ok (tr : Transform) (df : DataFrame)
    (lat_col lon_col : String) (fz : Option ℤ) (udc : Bool) (ie : String)
    (rd : ℕ) (x y : List ℚ)
    (hlat : lat_col ∈ df.colNames) (hlon : lon_col ∈ df.colNames)
    (hn : (validMask df lat_col lon_col udc).count true ≠ 0)
    (hrun : tr.run ie "EPSG:25831" (lonValid df lat_col lon_col udc)
      (latValid df lat_col lon_col udc) = Except.ok (x, y)) :
    convert_dataframe tr df lat_col lon_col "force_31n" fz udc ie rd =
      Except.ok
        (assemble df.colNames (survivors df lat_col lon_col udc)
          (coordCells rd (x.map some)) (coordCells rd (y.map some))
          (List.replicate (survivors df lat_col lon_col udc).length
            (Cell.text "EPSG:25831"))
          (List.replicate (survivors df lat_col lon_col udc).length
            (Cell.num 31)),
         ((validMask df lat_col lon_col udc).count true : ℤ),
         (df.rows.length : ℤ) -
           ((validMask df lat_col lon_col udc).count true : ℤ)) := by
  simp [convert_dataframe, hlat, hlon, hn, hrun]

theorem convert_fixed_missing (tr : Transform) (df : DataFrame)
    (lat_col lon_col : String) (udc : Bool) (ie : String) (rd : ℕ)
    (hlat : lat_col ∈ df.colNames) (hlon : lon_col ∈ df.colNames)
    (hn : (validMask df lat_col lon_col udc).count true ≠ 0) :
    convert_dataframe tr df lat_col lon_col "fixed" none udc ie rd =
      Except.error ConvErr.fixedZoneMissing := by
  simp [convert_dataframe, hlat, hlon, hn]

theorem convert_fixed_invalid (tr : Transform) (df : DataFrame)
    (lat_col lon_col : String) (z : ℤ) (udc : Bool) (ie : String) (rd : ℕ)
    (hlat : lat_col ∈ df.colNames) (hlon : lon_col ∈ df.colNames)
    (hn : (validMask df lat_col lon_col udc).count true ≠ 0)
    (hz : ¬(z = 29 ∨ z = 30 ∨ z = 31)) :
    convert_dataframe tr df lat_col lon_col "fixed" (some z) udc ie rd =
      Except.error ConvErr.fixedZoneInvalid := by
  simp [convert_dataframe, hlat, hlon, hn, hz]

theorem convert_fixed_ok (tr : Transform) (df : DataFrame)
    (lat_col lon_col : String) (z : ℤ) (udc : Bool) (ie : String) (rd : ℕ)
    (x y : List ℚ)
    (hlat : lat_col ∈ df.colNames) (hlon : lon_col ∈ df.colNames)
    (hn : (validMask df lat_col lon_col udc).count true ≠ 0)
    (hz : z = 29 ∨ z = 30 ∨ z = 31)
    (hrun : tr.run ie (epsgOf z) (lonValid df lat_col lon_col udc)
      (latValid df lat_col lon_col udc) = Except.ok (x, y)) :
    convert_dataframe tr df lat_col lon_col "fixed" (some z) udc ie rd =
      Except.ok
        (assemble df.colNames (survivors df lat_col lon_col udc)
          (coordCells rd (x.map some)) (coordCells rd (y.map some))
          (List.replicate (survivors df lat_col lon_col udc).length
            (Cell.text (epsgOf z)))
          (List.replicate (survivors df lat_col lon_col udc).length
            (Cell.num (z : ℚ))),
         ((validMask df lat_col lon_col udc).count true : ℤ),
         (df.rows.length : ℤ) -
           ((validMask df lat_col lon_col udc).count true : ℤ)) := by
  simp [convert_dataframe, hlat, hlon, hn, hz, hrun]

theorem convert_unknown_mode (tr : Transform) (df : DataFrame)
    (lat_col lon_col mode : String) (fz : Option ℤ) (udc : Bool) (ie : String)
    (rd : ℕ) (hlat : lat_col ∈ df.colNames) (hlon : lon_col ∈ df.colNames)
    (hn : (validMask df lat_col lon_col udc).count true ≠ 0)
    (h1 : mode ≠ "force_31n") (h2 : mode ≠ "auto") (h3 : mode ≠ "fixed") :
    convert_dataframe tr df lat_col lon_col mode fz udc ie rd =
      Except.error (ConvErr.unknownMode mode) := by
  simp [convert_dataframe, hlat, hlon, hn, h1, h2, h3]

theorem convert_auto_no_failure (tr : Transform) (df : DataFrame)
    (lat_col lon_col : String) (fz : Option ℤ) (udc : Bool) (ie : String)
    (rd : ℕ)
    (hlat : lat_col ∈ df.colNames) (hlon : lon_col ∈ df.colNames)
    (hn : (validMask df lat_col lon_col udc).count true ≠ 0)
    (hnofail : ((autoLoop tr ie ((lonValid df lat_col lon_col udc).map autoZone)
      (lonValid df lat_col lon_col udc)
      (latValid df lat_col lon_col udc)).failed.any id) = false) :
    convert_dataframe tr df lat_col lon_col "auto" fz udc ie rd =
      Except.ok
        (assemble df.colNames (survivors df lat_col lon_col udc)
          (coordCells rd (autoLoop tr ie
            ((lonValid df lat_col lon_col udc).map autoZone)
            (lonValid df lat_col lon_col udc)
            (latValid df lat_col lon_col udc)).xs)
          (coordCells rd (autoLoop tr ie
            ((lonValid df lat_col lon_col udc).map autoZone)
            (lonValid df lat_col lon_col udc)
            (latValid df lat_col lon_col udc)).ys)
          ((autoLoop tr ie ((lonValid df lat_col lon_col udc).map autoZone)
            (lonValid df lat_col lon_col udc)
            (latValid df lat_col lon_col udc)).epsgs.map optTextCell)
          (((lonValid df lat_col lon_col udc).map autoZone).map
            (fun (z : ℤ) => Cell.num (z : ℚ))),
         ((validMask df lat_col lon_col udc).count true : ℤ),
         (df.rows.length : ℤ) -
           ((validMask df lat_col lon_col udc).count true : ℤ)) := by
  simp [convert_dataframe, hlat, hlon, hn, hnofail]

theorem convert_auto_failure (tr : Transform) (df : DataFrame)
    (lat_col lon_col : String) (fz : Option ℤ) (udc : Bool) (ie : String)
    (rd : ℕ)
    (hlat : lat_col ∈ df.colNames) (hlon : lon_col ∈ df.colNames)
    (hn : (validMask df lat_col lon_col udc).count true ≠ 0)
    (hfail : ((autoLoop tr ie ((lonValid df lat_col lon_col udc).map autoZone)
      (lonValid df lat_col lon_col udc)
      (latValid df lat_col lon_col udc)).failed.any id) = true)
    (hnz : ((validMask df lat_col lon_col udc).count true : ℤ) -
      ((autoLoop tr ie ((lonValid df lat_col lon_col udc).map autoZone)
        (lonValid df lat_col lon_col udc)
        (latValid df lat_col lon_col udc)).failed.count true : ℤ) ≠ 0) :
    convert_dataframe tr df lat_col lon_col "auto" fz udc ie rd =
      Except.ok
        (assemble df.colNames
          (maskSelect ((autoLoop tr ie
              ((lonValid df lat_col lon_col udc).map autoZone)
              (lonValid df lat_col lon_col udc)
              (latValid df lat_col lon_col udc)).failed.map not)
            (survivors df lat_col lon_col udc))
          (coordCells rd (maskSelect ((autoLoop tr ie
              ((lonValid df lat_col lon_col udc).map autoZone)
              (lonValid df lat_col lon_col udc)
              (latValid df lat_col lon_col udc)).failed.map not)
            (autoLoop tr ie ((lonValid df lat_col lon_col udc).map autoZone)
              (lonValid df lat_col lon_col udc)
              (latValid df lat_col lon_col udc)).xs))
          (coordCells rd (maskSelect ((autoLoop tr ie
              ((lonValid df lat_col lon_col udc).map autoZone)
              (lonValid df lat_col lon_col udc)
              (latValid df lat_col lon_col udc)).failed.map not)
            (autoLoop tr ie ((lonValid df lat_col lon_col udc).map autoZone)
              (lonValid df lat_col lon_col udc)
              (latValid df lat_col lon_col udc)).ys))
          ((maskSelect ((autoLoop tr ie
              ((lonValid df lat_col lon_col udc).map autoZone)
              (lonValid df lat_col lon_col udc)
              (latValid df lat_col lon_col udc)).failed.map not)
            (autoLoop tr ie ((lonValid df lat_col lon_col udc).map autoZone)
              (lonValid df lat_col lon_col udc)
              (latValid df lat_col lon_col udc)).epsgs).map optTextCell)
          ((maskSelect ((autoLoop tr ie
              ((lonValid df lat_col lon_col udc).map autoZone)
              (lonValid df lat_col lon_col udc)
              (latValid df lat_col lon_col udc)).failed.map not)
            ((lonValid df lat_col lon_col udc).map autoZone)).map
            (fun (z : ℤ) => Cell.num (z : ℚ))),
         ((validMask df lat_col lon_col udc).count true : ℤ) -
           ((autoLoop tr ie ((lonValid df lat_col lon_col udc).map autoZone)
             (lonValid df lat_col lon_col udc)
             (latValid df lat_col lon_col udc)).failed.count true : ℤ),
         ((df.rows.length : ℤ) -
             ((validMask df lat_col lon_col udc).count true : ℤ)) +
           ((autoLoop tr ie ((lonValid df lat_col lon_col udc).map autoZone)
             (lonValid df lat_col lon_col udc)
             (latValid df lat_col lon_col udc)).failed.count true : ℤ)) := by
  simp [convert_dataframe, hlat, hlon, hn, hfail, hnz]

theorem convert_auto_all_failed (tr : Transform) (df : DataFrame)
    (lat_col lon_col : String) (fz : Option ℤ) (udc : Bool) (ie : String)
    (rd : ℕ)
    (hlat : lat_col ∈ df.colNames) (hlon : lon_col ∈ df.colNames)
    (hn : (validMask df lat_col lon_col udc).count true ≠ 0)
    (hfail : ((autoLoop tr ie ((lonValid df lat_col lon_col udc).map autoZone)
      (lonValid df lat_col lon_col udc)
      (latValid df lat_col lon_col udc)).failed.any id) = true)
    (hz : ((validMask df lat_col lon_col udc).count true : ℤ) -
      ((autoLoop tr ie ((lonValid df lat_col lon_col udc).map autoZone)
        (lonValid df lat_col lon_col udc)
        (latValid df lat_col lon_col udc)).failed.count true : ℤ) = 0) :
    convert_dataframe tr df lat_col lon_col "auto" fz udc ie rd =
      Except.error (ConvErr.allRowsFailed
        ((autoLoop tr ie ((lonValid df lat_col lon_col udc).map autoZone)
          (lonValid df lat_col lon_col udc)
          (latValid df lat_col lon_col udc)).lastError.getD "None")) := by
  simp [convert_dataframe, hlat, hlon, hn, hfail, hz]

theorem convert_force_err (tr : Transform) (df : DataFrame)
    (lat_col lon_col : String) (fz : Option ℤ) (udc : Bool) (ie : String)
    (rd : ℕ) (e : String)
    (hlat : lat_col ∈ df.colNames) (hlon : lon_col ∈ df.colNames)
    (hn : (validMask df lat_col lon_col udc).count true ≠ 0)
    (hrun : tr.run ie "EPSG:25831" (lonValid df lat_col lon_col udc)
      (latValid df lat_col lon_col udc) = Except.error e) :
    convert_dataframe tr df lat_col lon_col "force_31n" fz udc ie rd =
      Except.error (ConvErr.projError e) := by
  simp [convert_dataframe, hlat, hlon, hn, hrun]

theorem convert_fixed_err (tr : Transform) (df : DataFrame)
    (lat_col lon_col : String) (z : ℤ) (udc : Bool) (ie : String) (rd : ℕ)
    (e : String)
    (hlat : lat_col ∈ df.colNames) (hlon : lon_col ∈ df.colNames)
    (hn : (validMask df lat_col lon_col udc).count true ≠ 0)
    (hz : z = 29 ∨ z = 30 ∨ z = 31)
    (hrun : tr.run ie (epsgOf z) (lonValid df lat_col lon_col udc)
      (latValid df lat_col lon_col udc) = Except.error e) :
    convert_dataframe tr df lat_col lon_col "fixed" (some z) udc ie rd =
      Except.error (ConvErr.projError e) := by
  simp [convert_dataframe, hlat, hlon, hn, hz, hrun]

/-! ### The claims -/

/-- C6: the row validity filter keeps exactly the rows whose parsed
latitude lies in [-90, 90] inclusive and whose parsed longitude lies in
[-180, 180] inclusive; a value that parsed to the NaN sentinel (`none`)
is excluded, and the boundary values -90, 90, -180, 180 are kept. -/
theorem c6_validity_filter (lat lon : Option ℚ) :
    validPair lat lon = true ↔
      (∃ a, lat = some a ∧ -90 ≤ a ∧ a ≤ 90) ∧
      (∃ b, lon = some b ∧ -180 ≤ b ∧ b ≤ 180) := by
  cases lat <;> cases lon <;> simp [validPair, between, and_assoc]

/-- C6 witness: the boundary pair (90, -180) is kept; a NaN latitude is
excluded. -/
theorem c6_validity_filter_witness :
    validPair (some 90) (some (-180)) = true ∧
    validPair none (some 0) = false := by
  refine ⟨(c6_validity_filter (some 90) (some (-180))).mpr ?_, by decide⟩
  exact ⟨⟨90, rfl, by norm_num, le_refl 90⟩,
    ⟨-180, rfl, le_refl (-180 : ℚ), by norm_num⟩⟩

/-- C7: the numeric parser is total (every cell yields the sentinel or a
number, never an exception); with use_decimal_comma the textual form has
every comma replaced by a period before parsing, so "41,84346" parses to
41.84346 and "1,03335" to 1.03335; without it the same comma-written
text fails to parse for both columns, and a table containing only such
rows takes the no-valid-rows error for every transform oracle. -/
theorem c7_decimal_comma :
    (∀ (u : Bool) (c : Cell), to_float u c = none ∨ ∃ q, to_float u c = some q) ∧
    (∀ s : String,
      to_float true (Cell.text s) = parseDecimal (commaToPeriod s)) ∧
    to_float true (Cell.text "41,84346") = some (41.84346 : ℚ) ∧
    to_float true (Cell.text "1,03335") = some (1.03335 : ℚ) ∧
    to_float false (Cell.text "41,84346") = none ∧
    to_float false (Cell.text "1,03335") = none ∧
    (∀ tr : Transform,
      convert_dataframe tr
        ⟨["Lat", "Lon"], [[Cell.text "41,84346", Cell.text "1,03335"]]⟩
        "Lat" "Lon" "force_31n" none false "EPSG:4258" 3 =
      Except.error ConvErr.noValidRows) := by
  refine ⟨fun u c => ?_, fun s => rfl, ?_, ?_, by decide, by decide,
    fun tr => ?_⟩
  · cases h : to_float u c with
    | none => exact Or.inl rfl
    | some q => exact Or.inr ⟨q, rfl⟩
  · have h1 : to_float true (Cell.text "41,84346") =
        some (1 * ((digitsVal ['4', '1'] : ℚ) +
          (digitsVal ['8', '4', '3', '4', '6'] : ℚ) / (10 : ℚ) ^ 5)) := rfl
    rw [h1, show digitsVal ['4', '1'] = 41 from by decide,
      show digitsVal ['8', '4', '3', '4', '6'] = 84346 from by decide]
    norm_num
  · have h1 : to_float true (Cell.text "1,03335") =
        some (1 * ((digitsVal ['1'] : ℚ) +
          (digitsVal ['0', '3', '3', '3', '5'] : ℚ) / (10 : ℚ) ^ 5)) := rfl
    rw [h1, show digitsVal ['1'] = 1 from by decide,
      show digitsVal ['0', '3', '3', '3', '5'] = 3335 from by decide]
    norm_num
  · exact convert_no_valid tr _ "Lat" "Lon" "force_31n" none false "EPSG:4258" 3
      (by decide) (by decide) (by decide)

/-- C9: a missing latitude or longitude column raises the invalid-column
error naming that column, for every transform oracle and every table
content — before any parsing or transformation. -/
theorem c9_missing_column (tr : Transform) (df : DataFrame)
    (lat_col lon_col mode : String) (fz : Option ℤ) (udc : Bool)
    (ie : String) (rd : ℕ) :
    (lat_col ∉ df.colNames →
      convert_dataframe tr df lat_col lon_col mode fz udc ie rd =
        Except.error (ConvErr.columnNotFound lat_col)) ∧
    (lat_col ∈ df.colNames → lon_col ∉ df.colNames →
      convert_dataframe tr df lat_col lon_col mode fz udc ie rd =
        Except.error (ConvErr.columnNotFound lon_col)) :=
  ⟨fun h => convert_col_missing_lat tr df lat_col lon_col mode fz udc ie rd h,
   fun h1 h2 =>
     convert_col_missing_lon tr df lat_col lon_col mode fz udc ie rd h1 h2⟩

/-- C9 witness at a concrete table missing the "Lat" column. -/
theorem c9_missing_column_witness :
    convert_dataframe trId ⟨["Lon"], [[Cell.num 1]]⟩ "Lat" "Lon" "auto" none
      false "EPSG:4258" 3 = Except.error (ConvErr.columnNotFound "Lat") :=
  (c9_missing_column trId ⟨["Lon"], [[Cell.num 1]]⟩ "Lat" "Lon" "auto" none
    false "EPSG:4258" 3).1 (by decide)

/-- C4: if zero rows survive the range filter, the call raises the
no-valid-rows error.  The conclusion holds for every transform oracle at
once, so the outcome is decided before any transform handle is obtained
or any projection call is made, and no partial output table exists. -/
theorem c4_no_valid_rows (df : DataFrame) (lat_col lon_col mode : String)
    (fz : Option ℤ) (udc : Bool) (ie : String) (rd : ℕ)
    (hlat : lat_col ∈ df.colNames) (hlon : lon_col ∈ df.colNames)
    (h0 : (validMask df lat_col lon_col udc).count true = 0) :
    ∀ tr : Transform,
      convert_dataframe tr df lat_col lon_col mode fz udc ie rd =
        Except.error ConvErr.noValidRows :=
  fun tr => convert_no_valid tr df lat_col lon_col mode fz udc ie rd hlat hlon h0

/-- C4 witness: a table whose single row has latitude 95 (out of range). -/
theorem c4_no_valid_rows_witness :
    convert_dataframe trId ⟨["Lat", "Lon"], [[Cell.num 95, Cell.num 0]]⟩
      "Lat" "Lon" "auto" none false "EPSG:4258" 3 =
      Except.error ConvErr.noValidRows :=
  c4_no_valid_rows ⟨["Lat", "Lon"], [[Cell.num 95, Cell.num 0]]⟩
    "Lat" "Lon" "auto" none false "EPSG:4258" 3 (by decide) (by decide)
    (by decide) trId

/-- C1: whenever convert_dataframe returns a result, the returned
counters satisfy n_valid + n_drop = number of input rows — in every
mode, both when rows are dropped only by the range filter and when the
auto-mode zone-group failure path additionally moves rows from n_valid
to n_drop. -/
theorem c1_counters_sum (tr : Transform) (df : DataFrame)
    (lat_col lon_col mode : String) (fz : Option ℤ) (udc : Bool)
    (ie : String) (rd : ℕ) (out : DataFrame) (nv nd : ℤ)
    (h : convert_dataframe tr df lat_col lon_col mode fz udc ie rd =
      Except.ok (out, nv, nd)) :
    nv + nd = df.rows.length := by
  by_cases hlat : lat_col ∈ df.colNames
  case neg =>
    rw [convert_col_missing_lat tr df lat_col lon_col mode fz udc ie rd hlat] at h
    simp at h
  by_cases hlon : lon_col ∈ df.colNames
  case neg =>
    rw [convert_col_missing_lon tr df lat_col lon_col mode fz udc ie rd hlat hlon] at h
    simp at h
  by_cases h0 : (validMask df lat_col lon_col udc).count true = 0
  case pos =>
    rw [convert_no_valid tr df lat_col lon_col mode fz udc ie rd hlat hlon h0] at h
    simp at h
  by_cases hm1 : mode = "force_31n"
  case pos =>
    subst hm1
    cases hr : tr.run ie "EPSG:25831" (lonValid df lat_col lon_col udc)
        (latValid df lat_col lon_col udc) with
    | error e =>
        rw [convert_force_err tr df lat_col lon_col fz udc ie rd e hlat hlon h0 hr]
          at h
        simp at h
    | ok p =>
        rw [convert_force_ok tr df lat_col lon_col fz udc ie rd p.1 p.2 hlat hlon
          h0 (by simpa using hr)] at h
        simp only [Except.ok.injEq, Prod.mk.injEq] at h
        rw [← h.2.1, ← h.2.2]
        ring
  by_cases hm2 : mode = "auto"
  case pos =>
    subst hm2
    by_cases hfail : ((autoLoop tr ie
        ((lonValid df lat_col lon_col udc).map autoZone)
        (lonValid df lat_col lon_col udc)
        (latValid df lat_col lon_col udc)).failed.any id) = true
    case neg =>
      rw [convert_auto_no_failure tr df lat_col lon_col fz udc ie rd hlat hlon h0
        (by simpa using hfail)] at h
      simp only [Except.ok.injEq, Prod.mk.injEq] at h
      rw [← h.2.1, ← h.2.2]
      ring
    case pos =>
      by_cases hz : ((validMask df lat_col lon_col udc).count true : ℤ) -
          ((autoLoop tr ie ((lonValid df lat_col lon_col udc).map autoZone)
            (lonValid df lat_col lon_col udc)
            (latValid df lat_col lon_col udc)).failed.count true : ℤ) = 0
      case pos =>
        rw [convert_auto_all_failed tr df lat_col lon_col fz udc ie rd hlat hlon
          h0 hfail hz] at h
        simp at h
      case neg =>
        rw [convert_auto_failure tr df lat_col lon_col fz udc ie rd hlat hlon h0
          hfail hz] at h
        simp only [Except.ok.injEq, Prod.mk.injEq] at h
        rw [← h.2.1, ← h.2.2]
        ring
  by_cases hm3 : mode = "fixed"
  case pos =>
    subst hm3
    cases fz with
    | none =>
        rw [convert_fixed_missing tr df lat_col lon_col udc ie rd hlat hlon h0]
          at h
        simp at h
    | some z =>
        by_cases hzok : z = 29 ∨ z = 30 ∨ z = 31
        case neg =>
          rw [convert_fixed_invalid tr df lat_col lon_col z udc ie rd hlat hlon
            h0 hzok] at h
          simp at h
        case pos =>
          cases hr : tr.run ie (epsgOf z) (lonValid df lat_col lon_col udc)
              (latValid df lat_col lon_col udc) with
          | error e =>
              rw [convert_fixed_err tr df lat_col lon_col z udc ie rd e hlat
                hlon h0 hzok hr] at h
              simp at h
          | ok p =>
              rw [convert_fixed_ok tr df lat_col lon_col z udc ie rd p.1 p.2
                hlat hlon h0 hzok (by simpa using hr)] at h
              simp only [Except.ok.injEq, Prod.mk.injEq] at h
              rw [← h.2.1, ← h.2.2]
              ring
  rw [convert_unknown_mode tr df lat_col lon_col mode fz udc ie rd hlat hlon h0
    hm1 hm2 hm3] at h
  simp at h

/-- C1 witness at a concrete two-row table (one valid row, one dropped
by the range filter): the call returns and its counters sum to 2. -/
theorem c1_counters_sum_witness :
    ∃ (out : DataFrame) (nv nd : ℤ),
      convert_dataframe trId
          ⟨["Lat", "Lon"],
            [[Cell.num 40, Cell.num 0], [Cell.num 95, Cell.num 0]]⟩
          "Lat" "Lon" "force_31n" none false "EPSG:4258" 3 =
        Except.ok (out, nv, nd) ∧ nv + nd = 2 := by
  have h := convert_force_ok trId
    ⟨["Lat", "Lon"], [[Cell.num 40, Cell.num 0], [Cell.num 95, Cell.num 0]]⟩
    "Lat" "Lon" none false "EPSG:4258" 3 _ _ (by decide) (by decide) (by decide)
    rfl
  refine ⟨_, _, _, h, ?_⟩
  have hs := c1_counters_sum trId
    ⟨["Lat", "Lon"], [[Cell.num 40, Cell.num 0], [Cell.num 95, Cell.num 0]]⟩
    "Lat" "Lon" "force_31n" none false "EPSG:4258" 3 _ _ _ h
  rw [hs]
  decide

/-- C8: in force_31n mode, for a table with at least one valid row and a
successful batched transform, every output row has zone (Huso) 31 and
destination CRS "EPSG:25831", regardless of longitude (the input table
and its longitudes are arbitrary). -/
theorem c8_force_31n (tr : Transform) (df : DataFrame)
    (lat_col lon_col : String) (fz : Option ℤ) (udc : Bool) (ie : String)
    (rd : ℕ) (x y : List ℚ)
    (hlat : lat_col ∈ df.colNames) (hlon : lon_col ∈ df.colNames)
    (hn : (validMask df lat_col lon_col udc).count true ≠ 0)
    (hrun : tr.run ie "EPSG:25831" (lonValid df lat_col lon_col udc)
      (latValid df lat_col lon_col udc) = Except.ok (x, y))
    (hx : x.length = (validMask df lat_col lon_col udc).count true)
    (hy : y.length = (validMask df lat_col lon_col udc).count true)
    (hrect : df.Rect)
    (hhuso : "Huso" ∉ df.colNames) (hepsg : "EPSG_destino" ∉ df.colNames) :
    ∃ out nv nd,
      convert_dataframe tr df lat_col lon_col "force_31n" fz udc ie rd =
        Except.ok (out, nv, nd) ∧
      out.rows.length = (validMask df lat_col lon_col udc).count true ∧
      out.col "Huso" =
        List.replicate ((validMask df lat_col lon_col udc).count true)
          (Cell.num 31) ∧
      out.col "EPSG_destino" =
        List.replicate ((validMask df lat_col lon_col udc).count true)
          (Cell.text "EPSG:25831") := by
  have hsl : (survivors df lat_col lon_col udc).length =
      (validMask df lat_col lon_col udc).count true :=
    length_survivors df lat_col lon_col udc hlat hlon
  have hrect' := survivors_rect df lat_col lon_col udc hrect
  have hxl : (coordCells rd (x.map some)).length =
      (survivors df lat_col lon_col udc).length := by
    simp [coordCells, hx, hsl]
  have hyl : (coordCells rd (y.map some)).length =
      (survivors df lat_col lon_col udc).length := by
    simp [coordCells, hy, hsl]
  refine ⟨_, _, _, convert_force_ok tr df lat_col lon_col fz udc ie rd x y
    hlat hlon hn hrun, ?_, ?_, ?_⟩
  · simp only [assemble]
    rw [length_assembleRows _ _ _ _ _ hxl hyl (by simp) (by simp), hsl]
  · rw [assemble_col_huso df.colNames (survivors df lat_col lon_col udc)
      _ _ _ _ hhuso hrect' hxl hyl (by simp) (by simp), hsl]
  · rw [assemble_col_epsg df.colNames (survivors df lat_col lon_col udc)
      _ _ _ _ hepsg hrect' hxl hyl (by simp) (by simp), hsl]

/-- C8 witness at a one-row table (Lat 40, Lon 0) with the identity
transform. -/
theorem c8_force_31n_witness :
    ∃ out nv nd,
      convert_dataframe trId ⟨["Lat", "Lon"], [[Cell.num 40, Cell.num 0]]⟩
          "Lat" "Lon" "force_31n" none false "EPSG:4258" 3 =
        Except.ok (out, nv, nd) ∧
      out.rows.length = (validMask ⟨["Lat", "Lon"], [[Cell.num 40, Cell.num 0]]⟩
        "Lat" "Lon" false).count true ∧
      out.col "Huso" =
        List.replicate ((validMask ⟨["Lat", "Lon"], [[Cell.num 40, Cell.num 0]]⟩
          "Lat" "Lon" false).count true) (Cell.num 31) ∧
      out.col "EPSG_destino" =
        List.replicate ((validMask ⟨["Lat", "Lon"], [[Cell.num 40, Cell.num 0]]⟩
          "Lat" "Lon" false).count true) (Cell.text "EPSG:25831") :=
  c8_force_31n trId ⟨["Lat", "Lon"], [[Cell.num 40, Cell.num 0]]⟩
    "Lat" "Lon" none false "EPSG:4258" 3 _ _ (by decide) (by decide)
    (by decide) rfl
    (length_lonValid ⟨["Lat", "Lon"], [[Cell.num 40, Cell.num 0]]⟩
      "Lat" "Lon" false (by decide) (by decide))
    (length_latValid ⟨["Lat", "Lon"], [[Cell.num 40, Cell.num 0]]⟩
      "Lat" "Lon" false (by decide) (by decide))
    (by decide) (by decide) (by decide)

/-- C5: fixed mode raises a fatal error when fixed_zone is missing, and a
fatal error when it lies outside {29, 30, 31}; for a zone in the set the
CRS code is EPSG:258{zone} zero-padded to two digits, and every output
row carries that single zone and CRS code. -/
theorem c5_fixed_mode (tr : Transform) (df : DataFrame)
    (lat_col lon_col : String) (udc : Bool) (ie : String) (rd : ℕ)
    (hlat : lat_col ∈ df.colNames) (hlon : lon_col ∈ df.colNames)
    (hn : (validMask df lat_col lon_col udc).count true ≠ 0) :
    (convert_dataframe tr df lat_col lon_col "fixed" none udc ie rd =
      Except.error ConvErr.fixedZoneMissing) ∧
    (∀ z : ℤ, ¬(z = 29 ∨ z = 30 ∨ z = 31) →
      convert_dataframe tr df lat_col lon_col "fixed" (some z) udc ie rd =
        Except.error ConvErr.fixedZoneInvalid) ∧
    (epsgOf 29 = "EPSG:25829" ∧ epsgOf 30 = "EPSG:25830" ∧
      epsgOf 31 = "EPSG:25831") ∧
    (∀ z : ℤ, (z = 29 ∨ z = 30 ∨ z = 31) → ∀ x y : List ℚ,
      tr.run ie (epsgOf z) (lonValid df lat_col lon_col udc)
        (latValid df lat_col lon_col udc) = Except.ok (x, y) →
      x.length = (validMask df lat_col lon_col udc).count true →
      y.length = (validMask df lat_col lon_col udc).count true →
      df.Rect → "Huso" ∉ df.colNames → "EPSG_destino" ∉ df.colNames →
      ∃ out nv nd,
        convert_dataframe tr df lat_col lon_col "fixed" (some z) udc ie rd =
          Except.ok (out, nv, nd) ∧
        out.col "Huso" =
          List.replicate ((validMask df lat_col lon_col udc).count true)
            (Cell.num (z : ℚ)) ∧
        out.col "EPSG_destino" =
          List.replicate ((validMask df lat_col lon_col udc).count true)
            (Cell.text (epsgOf z))) := by
  refine ⟨convert_fixed_missing tr df lat_col lon_col udc ie rd hlat hlon hn,
    fun z hz => convert_fixed_invalid tr df lat_col lon_col z udc ie rd
      hlat hlon hn hz,
    ⟨by decide, by decide, by decide⟩,
    fun z hz x y hrun hx hy hrect hhuso hepsg => ?_⟩
  have hsl : (survivors df lat_col lon_col udc).length =
      (validMask df lat_col lon_col udc).count true :=
    length_survivors df lat_col lon_col udc hlat hlon
  have hrect' := survivors_rect df lat_col lon_col udc hrect
  have hxl : (coordCells rd (x.map some)).length =
      (survivors df lat_col lon_col udc).length := by
    simp [coordCells, hx, hsl]
  have hyl : (coordCells rd (y.map some)).length =
      (survivors df lat_col lon_col udc).length := by
    simp [coordCells, hy, hsl]
  refine ⟨_, _, _, convert_fixed_ok tr df lat_col lon_col z udc ie rd x y
    hlat hlon hn hz hrun, ?_, ?_⟩
  · rw [assemble_col_huso df.colNames (survivors df lat_col lon_col udc)
      _ _ _ _ hhuso hrect' hxl hyl (by simp) (by simp), hsl]
  · rw [assemble_col_epsg df.colNames (survivors df lat_col lon_col udc)
      _ _ _ _ hepsg hrect' hxl hyl (by simp) (by simp), hsl]

/-- C5 witness: missing zone and zone 28 are fatal; zone 30 succeeds with
Huso 30 and EPSG:25830 on every row. -/
theorem c5_fixed_mode_witness :
    (convert_dataframe trId ⟨["Lat", "Lon"], [[Cell.num 40, Cell.num 0]]⟩
        "Lat" "Lon" "fixed" none false "EPSG:4258" 3 =
      Except.error ConvErr.fixedZoneMissing) ∧
    (convert_dataframe trId ⟨["Lat", "Lon"], [[Cell.num 40, Cell.num 0]]⟩
        "Lat" "Lon" "fixed" (some 28) false "EPSG:4258" 3 =
      Except.error ConvErr.fixedZoneInvalid) ∧
    (∃ out nv nd,
      convert_dataframe trId ⟨["Lat", "Lon"], [[Cell.num 40, Cell.num 0]]⟩
          "Lat" "Lon" "fixed" (some 30) false "EPSG:4258" 3 =
        Except.ok (out, nv, nd) ∧
      out.col "Huso" =
        List.replicate ((validMask ⟨["Lat", "Lon"], [[Cell.num 40, Cell.num 0]]⟩
          "Lat" "Lon" false).count true) (Cell.num (30 : ℚ)) ∧
      out.col "EPSG_destino" =
        List.replicate ((validMask ⟨["Lat", "Lon"], [[Cell.num 40, Cell.num 0]]⟩
          "Lat" "Lon" false).count true) (Cell.text (epsgOf 30))) := by
  have hc := c5_fixed_mode trId ⟨["Lat", "Lon"], [[Cell.num 40, Cell.num 0]]⟩
    "Lat" "Lon" false "EPSG:4258" 3 (by decide) (by decide) (by decide)
  exact ⟨hc.1, hc.2.1 28 (by decide),
    hc.2.2.2 30 (Or.inr (Or.inl rfl)) _ _ rfl
      (length_lonValid ⟨["Lat", "Lon"], [[Cell.num 40, Cell.num 0]]⟩
        "Lat" "Lon" false (by decide) (by decide))
      (length_latValid ⟨["Lat", "Lon"], [[Cell.num 40, Cell.num 0]]⟩
        "Lat" "Lon" false (by decide) (by decide))
      (by decide) (by decide) (by decide)⟩

/-- C3: in auto mode (all zone groups transforming successfully), every
output row's destination zone is clamp(floor((lon + 180) / 6) + 1, 29, 31)
of that row's longitude only, with the matching EPSG:258{zone} code; the
code's formula coincides with the spec's clamp formula, and the boundary
longitudes give -12→29, -6→30, 0→31, and out-of-span -25→29, 9→31. -/
theorem c3_auto_zone (tr : Transform) (df : DataFrame)
    (lat_col lon_col : String) (fz : Option ℤ) (udc : Bool) (ie : String)
    (rd : ℕ)
    (hlat : lat_col ∈ df.colNames) (hlon : lon_col ∈ df.colNames)
    (hn : (validMask df lat_col lon_col udc).count true ≠ 0)
    (hok : ∀ z ∈ npUnique ((lonValid df lat_col lon_col udc).map autoZone),
      ∃ x y, groupCall tr ie ((lonValid df lat_col lon_col udc).map autoZone)
          (lonValid df lat_col lon_col udc) (latValid df lat_col lon_col udc)
          z = Except.ok (x, y) ∧
        x.length = (zoneMask ((lonValid df lat_col lon_col udc).map autoZone)
          z).count true ∧
        y.length = (zoneMask ((lonValid df lat_col lon_col udc).map autoZone)
          z).count true)
    (hrect : df.Rect) (hhuso : "Huso" ∉ df.colNames)
    (hepsg : "EPSG_destino" ∉ df.colNames) :
    (∀ lon : ℚ, autoZone lon = specZone lon) ∧
    (autoZone (-12) = 29 ∧ autoZone (-6) = 30 ∧ autoZone 0 = 31 ∧
      autoZone (-25) = 29 ∧ autoZone 9 = 31) ∧
    ∃ out nv nd,
      convert_dataframe tr df lat_col lon_col "auto" fz udc ie rd =
        Except.ok (out, nv, nd) ∧
      out.col "Huso" = (lonValid df lat_col lon_col udc).map
        (fun lon => Cell.num ((autoZone lon : ℤ) : ℚ)) ∧
      out.col "EPSG_destino" = (lonValid df lat_col lon_col udc).map
        (fun lon => Cell.text (epsgOf (autoZone lon))) := by
  refine ⟨?_, ⟨?_, ?_, ?_, ?_, ?_⟩, ?_⟩
  · intro lon
    simp only [autoZone, specZone, clampSpec]
    omega
  · have hf : Int.floor (((-12 : ℚ) + 180) / 6) = 28 :=
      Int.floor_eq_iff.2 ⟨by norm_num, by norm_num⟩
    simp only [autoZone, hf]
    decide
  · have hf : Int.floor (((-6 : ℚ) + 180) / 6) = 29 :=
      Int.floor_eq_iff.2 ⟨by norm_num, by norm_num⟩
    simp only [autoZone, hf]
    decide
  · have hf : Int.floor (((0 : ℚ) + 180) / 6) = 30 :=
      Int.floor_eq_iff.2 ⟨by norm_num, by norm_num⟩
    simp only [autoZone, hf]
    decide
  · have hf : Int.floor (((-25 : ℚ) + 180) / 6) = 25 :=
      Int.floor_eq_iff.2 ⟨by norm_num, by norm_num⟩
    simp only [autoZone, hf]
    decide
  · have hf : Int.floor (((9 : ℚ) + 180) / 6) = 31 :=
      Int.floor_eq_iff.2 ⟨by norm_num, by norm_num⟩
    simp only [autoZone, hf]
    decide
  · have herr : ∀ w ∈ (lonValid df lat_col lon_col udc).map autoZone,
        isErr (groupCall tr ie ((lonValid df lat_col lon_col udc).map autoZone)
          (lonValid df lat_col lon_col udc) (latValid df lat_col lon_col udc)
          w) = false := by
      intro w hw
      obtain ⟨x, y, hcall, _, _⟩ := hok w ((mem_npUnique _ _).2 hw)
      rw [hcall]
      rfl
    have hfl := autoLoop_failed_list tr ie
      ((lonValid df lat_col lon_col udc).map autoZone)
      (lonValid df lat_col lon_col udc) (latValid df lat_col lon_col udc)
      (fun _ => false) herr
    have hnofail : ((autoLoop tr ie
        ((lonValid df lat_col lon_col udc).map autoZone)
        (lonValid df lat_col lon_col udc)
        (latValid df lat_col lon_col udc)).failed.any id) = false := by
      rw [hfl]
      simp
    have hsl : (survivors df lat_col lon_col udc).length =
        (validMask df lat_col lon_col udc).count true :=
      length_survivors df lat_col lon_col udc hlat hlon
    have hll : (lonValid df lat_col lon_col udc).length =
        (validMask df lat_col lon_col udc).count true :=
      length_lonValid df lat_col lon_col udc hlat hlon
    have hzl : ((lonValid df lat_col lon_col udc).map autoZone).length =
        (validMask df lat_col lon_col udc).count true := by
      rw [List.length_map, hll]
    obtain ⟨hx1, hy1, he1, _⟩ := autoLoop_lengths tr ie
      ((lonValid df lat_col lon_col udc).map autoZone)
      (lonValid df lat_col lon_col udc) (latValid df lat_col lon_col udc)
    have hrect' := survivors_rect df lat_col lon_col udc hrect
    refine ⟨_, _, _, convert_auto_no_failure tr df lat_col lon_col fz udc ie rd
      hlat hlon hn hnofail, ?_, ?_⟩
    · rw [assemble_col_huso df.colNames (survivors df lat_col lon_col udc)
        (coordCells rd (autoLoop tr ie
          ((lonValid df lat_col lon_col udc).map autoZone)
          (lonValid df lat_col lon_col udc)
          (latValid df lat_col lon_col udc)).xs)
        (coordCells rd (autoLoop tr ie
          ((lonValid df lat_col lon_col udc).map autoZone)
          (lonValid df lat_col lon_col udc)
          (latValid df lat_col lon_col udc)).ys)
        ((autoLoop tr ie ((lonValid df lat_col lon_col udc).map autoZone)
          (lonValid df lat_col lon_col udc)
          (latValid df lat_col lon_col udc)).epsgs.map optTextCell)
        (((lonValid df lat_col lon_col udc).map autoZone).map
          (fun (z : ℤ) => Cell.num (z : ℚ)))
        hhuso hrect'
        (by simp only [coordCells, List.length_map]; rw [hx1, hzl, hsl])
        (by simp only [coordCells, List.length_map]; rw [hy1, hzl, hsl])
        (by simp only [List.length_map]; rw [he1, hzl, hsl])
        (by simp only [List.length_map]; rw [hll, hsl])]
      rw [List.map_map]
      rfl
    · rw [assemble_col_epsg df.colNames (survivors df lat_col lon_col udc)
        (coordCells rd (autoLoop tr ie
          ((lonValid df lat_col lon_col udc).map autoZone)
          (lonValid df lat_col lon_col udc)
          (latValid df lat_col lon_col udc)).xs)
        (coordCells rd (autoLoop tr ie
          ((lonValid df lat_col lon_col udc).map autoZone)
          (lonValid df lat_col lon_col udc)
          (latValid df lat_col lon_col udc)).ys)
        ((autoLoop tr ie ((lonValid df lat_col lon_col udc).map autoZone)
          (lonValid df lat_col lon_col udc)
          (latValid df lat_col lon_col udc)).epsgs.map optTextCell)
        (((lonValid df lat_col lon_col udc).map autoZone).map
          (fun (z : ℤ) => Cell.num (z : ℚ)))
        hepsg hrect'
        (by simp only [coordCells, List.length_map]; rw [hx1, hzl, hsl])
        (by simp only [coordCells, List.length_map]; rw [hy1, hzl, hsl])
        (by simp only [List.length_map]; rw [he1, hzl, hsl])
        (by simp only [List.length_map]; rw [hll, hsl])]
      rw [autoLoop_epsgs_all_ok tr ie
        ((lonValid df lat_col lon_col udc).map autoZone)
        (lonValid df lat_col lon_col udc) (latValid df lat_col lon_col udc)
        herr]
      rw [List.map_map, List.map_map]
      rfl

/-- C3 witness: a two-row table with longitudes -12 and 9 under the
identity transform; the zones column is as the formula dictates. -/
theorem c3_auto_zone_witness :
    ∃ out nv nd,
      convert_dataframe trId
          ⟨["Lat", "Lon"], [[Cell.num 40, Cell.num (-12)], [Cell.num 40, Cell.num 9]]⟩
          "Lat" "Lon" "auto" none false "EPSG:4258" 3 =
        Except.ok (out, nv, nd) ∧
      out.col "Huso" =
        (lonValid ⟨["Lat", "Lon"],
            [[Cell.num 40, Cell.num (-12)], [Cell.num 40, Cell.num 9]]⟩
          "Lat" "Lon" false).map
          (fun lon => Cell.num ((autoZone lon : ℤ) : ℚ)) ∧
      out.col "EPSG_destino" =
        (lonValid ⟨["Lat", "Lon"],
            [[Cell.num 40, Cell.num (-12)], [Cell.num 40, Cell.num 9]]⟩
          "Lat" "Lon" false).map
          (fun lon => Cell.text (epsgOf (autoZone lon))) := by
  have hlen : ∀ z : ℤ,
      (maskSelect (zoneMask ((lonValid ⟨["Lat", "Lon"],
          [[Cell.num 40, Cell.num (-12)], [Cell.num 40, Cell.num 9]]⟩
        "Lat" "Lon" false).map autoZone) z)
        (lonValid ⟨["Lat", "Lon"],
          [[Cell.num 40, Cell.num (-12)], [Cell.num 40, Cell.num 9]]⟩
        "Lat" "Lon" false)).length =
      (zoneMask ((lonValid ⟨["Lat", "Lon"],
          [[Cell.num 40, Cell.num (-12)], [Cell.num 40, Cell.num 9]]⟩
        "Lat" "Lon" false).map autoZone) z).count true := by
    intro z
    exact length_maskSelect _ _ (by simp [length_zoneMask])
  have hlen2 : ∀ z : ℤ,
      (maskSelect (zoneMask ((lonValid ⟨["Lat", "Lon"],
          [[Cell.num 40, Cell.num (-12)], [Cell.num 40, Cell.num 9]]⟩
        "Lat" "Lon" false).map autoZone) z)
        (latValid ⟨["Lat", "Lon"],
          [[Cell.num 40, Cell.num (-12)], [Cell.num 40, Cell.num 9]]⟩
        "Lat" "Lon" false)).length =
      (zoneMask ((lonValid ⟨["Lat", "Lon"],
          [[Cell.num 40, Cell.num (-12)], [Cell.num 40, Cell.num 9]]⟩
        "Lat" "Lon" false).map autoZone) z).count true := by
    intro z
    refine length_maskSelect _ _ ?_
    rw [length_zoneMask, List.length_map,
      length_lonValid _ "Lat" "Lon" false (by decide) (by decide),
      length_latValid _ "Lat" "Lon" false (by decide) (by decide)]
  exact (c3_auto_zone trId
    ⟨["Lat", "Lon"], [[Cell.num 40, Cell.num (-12)], [Cell.num 40, Cell.num 9]]⟩
    "Lat" "Lon" none false "EPSG:4258" 3 (by decide) (by decide) (by decide)
    (fun z _ => ⟨_, _, rfl, hlen z, hlen2 z⟩)
    (by decide) (by decide) (by decide)).2.2

theorem zoneMask_count_lt (z0 : ℤ) :
    ∀ zs : List ℤ, (∃ z1 ∈ zs, z1 ≠ z0) →
      (zoneMask zs z0).count true < zs.length
  | [], h => by simp at h
  | w :: zs, h => by
      by_cases hw : w = z0
      · obtain ⟨z1, hz1m, hz1⟩ := h
        have hz1t : z1 ∈ zs := by
          rcases List.mem_cons.1 hz1m with hh | hh
          · exact absurd (hh.trans hw) hz1
          · exact hh
        have := zoneMask_count_lt z0 zs ⟨z1, hz1t, hz1⟩
        simp only [zoneMask_cons, hw, List.count_cons]
        simp
        omega
      · have hle : (zoneMask zs z0).count true ≤ zs.length := by
          have := List.count_le_length true (zoneMask zs z0)
          rwa [length_zoneMask] at this
        simp only [zoneMask_cons, List.count_cons, List.length_cons]
        simp [hw]
        omega

theorem zoneMask_any (zs : List ℤ) (z0 : ℤ) (h : z0 ∈ zs) :
    (zoneMask zs z0).any id = true := by
  refine List.any_eq_true.2 ⟨true, ?_, rfl⟩
  simp only [zoneMask, List.mem_map]
  exact ⟨z0, h, by simp⟩

/-- C2: in auto mode, when the transform of one zone group z0 fails with
a projection error while every other zone group succeeds (and another
group exists), convert_dataframe still returns: exactly the z0 group's
rows are removed from the output, the rows of the other zone groups keep
their transformed (rounded) coordinates, and the group's size moves from
n_valid to n_drop; when every zone group fails, it raises the
"transformation failed for all rows" error carrying the error of the
last zone group processed. -/
theorem c2_auto_group_failure (tr : Transform) (df : DataFrame)
    (lat_col lon_col : String) (fz : Option ℤ) (udc : Bool) (ie : String)
    (rd : ℕ) (lonV latV : List ℚ) (zones : List ℤ) (n : ℕ)
    (hlonV : lonV = lonValid df lat_col lon_col udc)
    (hlatV : latV = latValid df lat_col lon_col udc)
    (hzones : zones = lonV.map autoZone)
    (hneq : n = (validMask df lat_col lon_col udc).count true)
    (hlat : lat_col ∈ df.colNames) (hlon : lon_col ∈ df.colNames)
    (hn0 : n ≠ 0) :
    (∀ (z0 : ℤ) (e : String), z0 ∈ zones →
      groupCall tr ie zones lonV latV z0 = Except.error e →
      (∀ z ∈ npUnique zones, z ≠ z0 → ∃ x y,
        groupCall tr ie zones lonV latV z = Except.ok (x, y) ∧
        x.length = (zoneMask zones z).count true ∧
        y.length = (zoneMask zones z).count true) →
      (∃ z1 ∈ zones, z1 ≠ z0) →
      df.Rect → "X_ETRS89" ∉ df.colNames → "Y_ETRS89" ∉ df.colNames →
      ∃ out,
        convert_dataframe tr df lat_col lon_col "auto" fz udc ie rd =
          Except.ok (out, (n : ℤ) - ((zoneMask zones z0).count true : ℤ),
            ((df.rows.length : ℤ) - (n : ℤ)) +
              ((zoneMask zones z0).count true : ℤ)) ∧
        out.rows.map (fun r => r.take df.colNames.length) =
          maskSelect (keepMask zones z0) (survivors df lat_col lon_col udc) ∧
        (∀ z ∈ npUnique zones, z ≠ z0 → ∀ x y,
          groupCall tr ie zones lonV latV z = Except.ok (x, y) →
          maskSelect (zoneMask (maskSelect (keepMask zones z0) zones) z)
              (out.col "X_ETRS89") =
            x.map (fun q => Cell.num (roundTo rd q)) ∧
          maskSelect (zoneMask (maskSelect (keepMask zones z0) zones) z)
              (out.col "Y_ETRS89") =
            y.map (fun q => Cell.num (roundTo rd q)))) ∧
    (∀ errf : ℤ → String,
      (∀ z ∈ npUnique zones,
        groupCall tr ie zones lonV latV z = Except.error (errf z)) →
      ∃ zl, (npUnique zones).getLast? = some zl ∧
        convert_dataframe tr df lat_col lon_col "auto" fz udc ie rd =
          Except.error (ConvErr.allRowsFailed (errf zl))) := by
  have hll : lonV.length = n := by
    rw [hlonV, hneq]
    exact length_lonValid df lat_col lon_col udc hlat hlon
  have hzl : zones.length = n := by rw [hzones, List.length_map, hll]
  have hsl : (survivors df lat_col lon_col udc).length = n := by
    rw [hneq]
    exact length_survivors df lat_col lon_col udc hlat hlon
  obtain ⟨hx1, hy1, he1, hf1⟩ := autoLoop_lengths tr ie zones lonV latV
  constructor
  · intro z0 e hz0m hfailz0 hok hother hrect hxcol hycol
    have herrB : ∀ w ∈ zones,
        isErr (groupCall tr ie zones lonV latV w) = decide (w = z0) := by
      intro w hw
      by_cases hwz : w = z0
      · subst hwz
        rw [hfailz0]
        simp [isErr]
      · obtain ⟨x, y, hc, _, _⟩ := hok w ((mem_npUnique _ _).2 hw) hwz
        rw [hc]
        simp [isErr, hwz]
    have hflz : (autoLoop tr ie zones lonV latV).failed = zoneMask zones z0 :=
      autoLoop_failed_list tr ie zones lonV latV _ herrB
    have hfail : (autoLoop tr ie zones lonV latV).failed.any id = true := by
      rw [hflz]
      exact zoneMask_any zones z0 hz0m
    have hcnt : ((autoLoop tr ie zones lonV latV).failed.count true) =
        (zoneMask zones z0).count true := by rw [hflz]
    have hcntlt : (zoneMask zones z0).count true < n := by
      rw [← hzl]
      exact zoneMask_count_lt z0 zones hother
    have hconv := convert_auto_failure tr df lat_col lon_col fz udc ie rd
      hlat hlon (by rw [← hneq]; exact hn0)
      (by rw [← hlonV, ← hlatV, ← hzones]; exact hfail)
      (by rw [← hlonV, ← hlatV, ← hzones, ← hneq, hcnt]; omega)
    rw [← hlonV, ← hlatV, ← hzones, ← hneq] at hconv
    rw [hcnt, hflz, keepMask_eq_map_not] at hconv
    have hkz : (keepMask zones z0).length = zones.length :=
      length_keepMask zones z0
    have hrect' := survivors_rect df lat_col lon_col udc hrect
    have hrows2len : (maskSelect (keepMask zones z0)
        (survivors df lat_col lon_col udc)).length =
        (keepMask zones z0).count true :=
      length_maskSelect _ _ (by rw [hkz, hzl, hsl])
    have hxs2len : (coordCells rd (maskSelect (keepMask zones z0)
        (autoLoop tr ie zones lonV latV).xs)).length =
        (keepMask zones z0).count true := by
      simp only [coordCells, List.length_map]
      exact length_maskSelect _ _ (by rw [hkz, hx1])
    have hys2len : (coordCells rd (maskSelect (keepMask zones z0)
        (autoLoop tr ie zones lonV latV).ys)).length =
        (keepMask zones z0).count true := by
      simp only [coordCells, List.length_map]
      exact length_maskSelect _ _ (by rw [hkz, hy1])
    have hes2len : ((maskSelect (keepMask zones z0)
        (autoLoop tr ie zones lonV latV).epsgs).map optTextCell).length =
        (keepMask zones z0).count true := by
      simp only [List.length_map]
      exact length_maskSelect _ _ (by rw [hkz, he1])
    have hhs2len : ((maskSelect (keepMask zones z0) zones).map
        (fun (z : ℤ) => Cell.num (z : ℚ))).length =
        (keepMask zones z0).count true := by
      simp only [List.length_map]
      exact length_maskSelect _ _ hkz
    have hrect2 : ∀ r ∈ maskSelect (keepMask zones z0)
        (survivors df lat_col lon_col udc), r.length = df.colNames.length :=
      fun r hr => hrect' r (mem_of_mem_maskSelect _ _ r hr)
    refine ⟨_, hconv, ?_, ?_⟩
    · simp only [assemble]
      exact assembleRows_map_take df.colNames.length _ _ _ _ _ hrect2
        (hxs2len.trans hrows2len.symm) (hys2len.trans hrows2len.symm)
        (hes2len.trans hrows2len.symm) (hhs2len.trans hrows2len.symm)
    · intro z hzm hzz0 x y hc
      have hzmem : z ∈ zones := (mem_npUnique _ _).1 hzm
      obtain ⟨x', y', hc', hxlen', hylen'⟩ := hok z hzm hzz0
      rw [hc] at hc'
      injection hc' with hp
      have hx' : x = x' := congrArg Prod.fst hp
      have hy' : y = y' := congrArg Prod.snd hp
      subst hx'
      subst hy'
      obtain ⟨hselx, hsely, _⟩ := autoLoop_sel_ok tr ie zones lonV latV z x y
        hc hxlen' hylen' hzmem
      have hcolx := assemble_col_x df.colNames
        (maskSelect (keepMask zones z0) (survivors df lat_col lon_col udc))
        (coordCells rd (maskSelect (keepMask zones z0)
          (autoLoop tr ie zones lonV latV).xs))
        (coordCells rd (maskSelect (keepMask zones z0)
          (autoLoop tr ie zones lonV latV).ys))
        ((maskSelect (keepMask zones z0)
          (autoLoop tr ie zones lonV latV).epsgs).map optTextCell)
        ((maskSelect (keepMask zones z0) zones).map
          (fun (z : ℤ) => Cell.num (z : ℚ)))
        hxcol hrect2
        (hxs2len.trans hrows2len.symm) (hys2len.trans hrows2len.symm)
        (hes2len.trans hrows2len.symm) (hhs2len.trans hrows2len.symm)
      have hcoly := assemble_col_y df.colNames
        (maskSelect (keepMask zones z0) (survivors df lat_col lon_col udc))
        (coordCells rd (maskSelect (keepMask zones z0)
          (autoLoop tr ie zones lonV latV).xs))
        (coordCells rd (maskSelect (keepMask zones z0)
          (autoLoop tr ie zones lonV latV).ys))
        ((maskSelect (keepMask zones z0)
          (autoLoop tr ie zones lonV latV).epsgs).map optTextCell)
        ((maskSelect (keepMask zones z0) zones).map
          (fun (z : ℤ) => Cell.num (z : ℚ)))
        hycol hrect2
        (hxs2len.trans hrows2len.symm) (hys2len.trans hrows2len.symm)
        (hes2len.trans hrows2len.symm) (hhs2len.trans hrows2len.symm)
      constructor
      · rw [hcolx]
        simp only [coordCells]
        rw [maskSelect_map, maskSelect_keep_nested z z0 hzz0 zones
          (autoLoop tr ie zones lonV latV).xs hx1.symm, hselx, List.map_map]
        rfl
      · rw [hcoly]
        simp only [coordCells]
        rw [maskSelect_map, maskSelect_keep_nested z z0 hzz0 zones
          (autoLoop tr ie zones lonV latV).ys hy1.symm, hsely, List.map_map]
        rfl
  · intro errf hf
    have herrB : ∀ w ∈ zones,
        isErr (groupCall tr ie zones lonV latV w) = true := by
      intro w hw
      rw [hf w ((mem_npUnique _ _).2 hw)]
      rfl
    have hflz : (autoLoop tr ie zones lonV latV).failed =
        zones.map (fun _ => true) :=
      autoLoop_failed_list tr ie zones lonV latV _ herrB
    have hzne : zones ≠ [] := by
      intro hnil
      rw [hnil] at hzl
      simp at hzl
      exact hn0 hzl.symm
    obtain ⟨w0, hw0⟩ := List.exists_mem_of_ne_nil zones hzne
    have hfail : (autoLoop tr ie zones lonV latV).failed.any id = true := by
      rw [hflz]
      exact List.any_eq_true.2 ⟨true, List.mem_map.2 ⟨w0, hw0, rfl⟩, rfl⟩
    have hcnt : ((autoLoop tr ie zones lonV latV).failed.count true) = n := by
      rw [hflz, List.map_const', List.count_replicate, hzl]
      simp
    have hconv := convert_auto_all_failed tr df lat_col lon_col fz udc ie rd
      hlat hlon (by rw [← hneq]; exact hn0)
      (by rw [← hlonV, ← hlatV, ← hzones]; exact hfail)
      (by rw [← hlonV, ← hlatV, ← hzones, ← hneq, hcnt]; omega)
    rw [← hlonV, ← hlatV, ← hzones] at hconv
    obtain ⟨zl, hlast, hle⟩ := autoLoop_lastError_allfail tr ie zones lonV latV
      errf hf hzne
    refine ⟨zl, hlast, ?_⟩
    rw [hconv, hle]
    rfl

/-- C2 witness: two rows in zones 29 and 31; the zone-29 transform fails,
the zone-31 row survives, counters become (1, 1) and no exception
escapes. -/
theorem c2_auto_group_failure_witness :
    ∃ out,
      convert_dataframe (trFailOn "EPSG:25829" "boom")
          ⟨["Lat", "Lon"],
            [[Cell.num 40, Cell.num (-12)], [Cell.num 40, Cell.num 9]]⟩
          "Lat" "Lon" "auto" none false "EPSG:4258" 3 =
        Except.ok (out, 1, 1) := by
  have h1 : autoZone (-12) = 29 := by
    have hf : Int.floor (((-12 : ℚ) + 180) / 6) = 28 :=
      Int.floor_eq_iff.2 ⟨by norm_num, by norm_num⟩
    simp only [autoZone, hf]
    decide
  have h2 : autoZone 9 = 31 := by
    have hf : Int.floor (((9 : ℚ) + 180) / 6) = 31 :=
      Int.floor_eq_iff.2 ⟨by norm_num, by norm_num⟩
    simp only [autoZone, hf]
    decide
  have hzs : ([29, 31] : List ℤ) =
      ([(-12 : ℚ), 9]).map autoZone := by
    simp [h1, h2]
  obtain ⟨out, hconv, _, _⟩ :=
    (c2_auto_group_failure (trFailOn "EPSG:25829" "boom")
      ⟨["Lat", "Lon"],
        [[Cell.num 40, Cell.num (-12)], [Cell.num 40, Cell.num 9]]⟩
      "Lat" "Lon" none false "EPSG:4258" 3
      [(-12 : ℚ), 9] [(40 : ℚ), 40] [29, 31] 2
      (by decide) (by decide) hzs (by decide) (by decide) (by decide)
      (by decide)).1 29 "boom" (by decide) (by decide)
      (by
        intro z hzm hzne
        have hz2 : z = 29 ∨ z = 31 := by
          simpa using (mem_npUnique z [29, 31]).1 hzm
        rcases hz2 with rfl | rfl
        · exact absurd rfl hzne
        · exact ⟨_, _, rfl, by decide, by decide⟩)
      ⟨31, by decide, by decide⟩ (by decide) (by decide) (by decide)
  rw [(by decide : ((zoneMask [29, 31] 29).count true : ℤ) = 1)] at hconv
  rw [(by decide : (((⟨["Lat", "Lon"],
      [[Cell.num 40, Cell.num (-12)], [Cell.num 40, Cell.num 9]]⟩ :
      DataFrame)).rows.length : ℤ) = 2)] at hconv
  rw [(by decide : ((2 : ℕ) : ℤ) - 1 = 1)] at hconv
  rw [(by decide : ((2 : ℤ) - (2 : ℕ)) + 1 = 1)] at hconv
  exact ⟨out, hconv⟩

/-! ### The frame property of the heap translation -/

theorem getD_set_ne {α : Type} (l : List α) (j : ℕ) (a : α) (i : ℕ) (d : α)
    (hij : i ≠ j) : (l.set j a).getD i d = l.getD i d := by
  rcases Nat.lt_or_ge i l.length with hlt | hge
  · rw [List.getD_eq_getElem _ _ (by simpa using hlt),
      List.getD_eq_getElem _ _ hlt]
    exact List.getElem_set_of_ne (fun hh => hij hh.symm) a _
  · rw [List.getD_eq_default _ _ (by simpa using hge),
      List.getD_eq_default _ _ hge]

theorem heap_read_alloc (h : Heap) (d : DataFrame) (i : ℕ) (hi : i < h.length) :
    (h.alloc d).1.read i = h.read i := by
  simp only [Heap.alloc, Heap.read]
  exact List.getD_append _ _ _ _ hi

theorem heap_read_write_ne (h : Heap) (j : ℕ) (d : DataFrame) (i : ℕ)
    (hij : i ≠ j) : (h.write j d).read i = h.read i := by
  simp only [Heap.write, Heap.read]
  exact getD_set_ne h j d i _ hij

theorem heap_length_write (h : Heap) (j : ℕ) (d : DataFrame) :
    (h.write j d).length = h.length := by
  simp [Heap.write]

theorem buildResults_spec (h : Heap) (n : ℕ) (xs ys es hs : List Cell) :
    (buildResults h n xs ys es hs).2 = h.length ∧
    (buildResults h n xs ys es hs).1.length = h.length + 1 ∧
    ∀ i, i < h.length → (buildResults h n xs ys es hs).1.read i = h.read i := by
  refine ⟨rfl, ?_, ?_⟩
  · simp [buildResults, Heap.alloc, Heap.write, Heap.read]
  · intro i hi
    have hne : i ≠ h.length := Nat.ne_of_lt hi
    simp only [buildResults, Heap.alloc]
    rw [heap_read_write_ne _ _ _ _ hne, heap_read_write_ne _ _ _ _ hne,
      heap_read_write_ne _ _ _ _ hne, heap_read_write_ne _ _ _ _ hne]
    simp only [Heap.read]
    exact List.getD_append _ _ _ _ hi

theorem finishOut_spec (h : Heap) (a r : ℕ) (rd : ℕ) (i : ℕ)
    (hi : i < h.length) (hir : i ≠ r) :
    (finishOut h a r rd).1.read i = h.read i := by
  simp only [finishOut]
  rw [heap_read_alloc _ _ i
      (by rw [heap_length_write, heap_length_write]; exact hi),
    heap_read_write_ne _ _ _ _ hir, heap_read_write_ne _ _ _ _ hir]

/-- C10: the caller's table is never mutated.  In the object-store
translation, where every pandas object (the copy, df_out, results, the
concatenated output) is an allocated heap object and in-place column
assignments are heap writes, the object the caller passed in is
unchanged in the final heap — on every mode and every outcome, normal
return or raised error. -/
theorem c10_no_input_mutation (tr : Transform) (h : Heap) (dfRef : ℕ)
    (lat_col lon_col mode : String) (fz : Option ℤ) (udc : Bool)
    (ie : String) (rd : ℕ) (href : dfRef < h.length) :
    ((convert_dataframe_heap tr h dfRef lat_col lon_col mode fz udc ie rd).2).read
      dfRef = h.read dfRef := by
  have h2len : (h.alloc (h.read dfRef)).1.length = h.length + 1 := by
    simp [Heap.alloc]
  have hread2 : (h.alloc (h.read dfRef)).1.read dfRef = h.read dfRef :=
    heap_read_alloc h _ dfRef href
  simp only [convert_dataframe_heap]
  split
  · rfl
  split
  · rfl
  set h2 := (h.alloc (h.read dfRef)).1 with hh2
  have href2 : dfRef < h2.length := by rw [h2len]; omega
  split
  · exact hread2
  set h3 := (h2.alloc ⟨(h2.read (h.alloc (h.read dfRef)).2).colNames,
    survivors (h2.read (h.alloc (h.read dfRef)).2) lat_col lon_col udc⟩).1 with hh3
  have h3len : h3.length = h2.length + 1 := by simp [hh3, Heap.alloc]
  have href3 : dfRef < h3.length := by rw [h3len]; omega
  have hread3 : h3.read dfRef = h.read dfRef := by
    rw [hh3]
    rw [heap_read_alloc h2 _ dfRef href2]
    exact hread2
  split
  · -- force_31n
    split
    · exact hread3
    · obtain ⟨hb2, hb1, hbr⟩ := buildResults_spec h3 _ _ _ _ _
      rw [finishOut_spec _ _ _ _ dfRef
          (by rw [hb1]; omega)
          (by rw [hb2]; omega),
        hbr dfRef href3]
      exact hread3
  split
  · -- auto
    split
    · -- failure path: extra alloc for the filtered df_out
      set h4 := (h3.alloc _).1 with hh4
      have h4len : h4.length = h3.length + 1 := by simp [hh4, Heap.alloc]
      have href4 : dfRef < h4.length := by rw [h4len]; omega
      have hread4 : h4.read dfRef = h.read dfRef := by
        rw [hh4, heap_read_alloc h3 _ dfRef href3]
        exact hread3
      split
      · exact hread4
      · obtain ⟨hb2, hb1, hbr⟩ := buildResults_spec h4 _ _ _ _ _
        rw [finishOut_spec _ _ _ _ dfRef
            (by rw [hb1]; omega)
            (by rw [hb2]; omega),
          hbr dfRef href4]
        exact hread4
    · obtain ⟨hb2, hb1, hbr⟩ := buildResults_spec h3 _ _ _ _ _
      rw [finishOut_spec _ _ _ _ dfRef
          (by rw [hb1]; omega)
          (by rw [hb2]; omega),
        hbr dfRef href3]
      exact hread3
  split
  · -- fixed
    split
    · exact hread3
    split
    · split
      · exact hread3
      · obtain ⟨hb2, hb1, hbr⟩ := buildResults_spec h3 _ _ _ _ _
        rw [finishOut_spec _ _ _ _ dfRef
            (by rw [hb1]; omega)
            (by rw [hb2]; omega),
          hbr dfRef href3]
        exact hread3
    · exact hread3
  · exact hread3

/-- C10 witness: a concrete one-row table at heap slot 0 is unchanged by
an auto-mode call. -/
theorem c10_no_input_mutation_witness :
    ((convert_dataframe_heap trId
        [⟨["Lat", "Lon"], [[Cell.num 40, Cell.num 0]]⟩] 0
        "Lat" "Lon" "force_31n" none false "EPSG:4258" 3).2).read 0 =
      Heap.read [⟨["Lat", "Lon"], [[Cell.num 40, Cell.num 0]]⟩] 0 :=
  c10_no_input_mutation trId [⟨["Lat", "Lon"], [[Cell.num 40, Cell.num 0]]⟩]
    0 "Lat" "Lon" "force_31n" none false "EPSG:4258" 3 (by decide)

end Etrs89
